import Mathlib

/-!
PCF85063A real-time-clock driver: embedding and properties.

A shallow embedding of `PCF85063A-SOLDERED.cpp`.

* `uint8_t` and `uint16_t` values are natural numbers reduced `% 256` and
  `% 65536` wherever the C++ code converts to those types; `int` values
  (the result of `Wire.read()`) and `int8_t` values are integers.
* The `Wire` object is explicit state: the transmit buffer, the receive
  buffer, a log of the completed bus transactions and the state of the
  device at the other end of the bus.
* The macros of `PCF85063A-SOLDERED.h` are the fields of `Header`, a
  parameter of every operation.
-/

namespace PCF85063A

/-! ## Register codec -/

/-- Conversion of an `int` to `uint8_t`. -/
def toU8 (x : Int) : Nat := (x % 256).toNat

/-- Conversion of a `uint8_t` bit pattern to `int8_t` (twos-complement reading). -/
def toI8 (b : Nat) : Int := if b % 256 < 128 then ((b % 256 : Nat) : Int) else ((b % 256 : Nat) : Int) - 256

/-- The bits of `~x` that survive in a `uint8_t`. -/
def not8 (x : Nat) : Nat := 255 ^^^ (x % 256)

/-- Source `decToBcd`: `return ((val / 10 * 16) + (val % 10));` on `uint8_t`. -/
def decToBcd (val : Nat) : Nat := ((val % 256) / 10 * 16 + (val % 256) % 10) % 256

/-- Source `bcdToDec`: `return ((val / 16 * 10) + (val % 16));` on `uint8_t`. -/
def bcdToDec (val : Nat) : Nat := ((val % 256) / 16 * 10 + (val % 256) % 16) % 256

/-- Arduino `constrain(amt, low, high)`:
`((amt) < (low) ? (low) : ((amt) > (high) ? (high) : (amt)))`. -/
def constrain (amt low high : Nat) : Nat :=
  if amt < low then low else if amt > high then high else amt

/-- Modelled from the spec: the header defining `RTC_ALARM` is not in the
source tree; the spec places the enable-bit of an alarm field at bit 7. -/
def RTC_ALARM : Nat := 0x80

/-- The macros of `PCF85063A-SOLDERED.h` used by the driver: the bus address,
the register addresses and the flags of the control and timer registers. -/
structure Header where
  I2C_ADDR : Nat
  RTC_CTRL_1 : Nat
  RTC_CTRL_2 : Nat
  RTC_OFFSET : Nat
  RTC_SECOND_ADDR : Nat
  RTC_DAY_ADDR : Nat
  RTC_SECOND_ALARM : Nat
  RTC_TIMER_VAL : Nat
  RTC_TIMER_MODE : Nat
  RTC_CTRL_2_DEFAULT : Nat
  RTC_ALARM_AIE : Nat
  RTC_ALARM_AF : Nat
  RTC_TIMER_FLAG : Nat
  RTC_TIMER_TE : Nat
  RTC_TIMER_TIE : Nat
  RTC_TIMER_TI_TP : Nat

/-- A concrete header for the instances below: the register map and flag
values of the PCF85063A data sheet that the comments of the source cite. -/
def datasheet : Header where
  I2C_ADDR := 0x51
  RTC_CTRL_1 := 0x00
  RTC_CTRL_2 := 0x01
  RTC_OFFSET := 0x02
  RTC_SECOND_ADDR := 0x04
  RTC_DAY_ADDR := 0x07
  RTC_SECOND_ALARM := 0x0B
  RTC_TIMER_VAL := 0x10
  RTC_TIMER_MODE := 0x11
  RTC_CTRL_2_DEFAULT := 0x00
  RTC_ALARM_AIE := 0x80
  RTC_ALARM_AF := 0x40
  RTC_TIMER_FLAG := 0x08
  RTC_TIMER_TE := 0x04
  RTC_TIMER_TIE := 0x02
  RTC_TIMER_TI_TP := 0x01

/-! ## Bus transport -/

/-- One completed bus transaction. -/
inductive BusEvent where
  /-- A write: the bytes queued between `beginTransmission` and `endTransmission`. -/
  | write (bytes : List Nat)
  /-- A read: `requestFrom` asking for `count` bytes. -/
  | request (count : Nat)
  deriving DecidableEq, Repr

/-- The device at the other end of the bus, with state `σ`: what a write
transaction does to it and what it answers to a read of `count` bytes. -/
structure Transport (σ : Type) where
  onWrite : σ → List Nat → σ
  onRequest : σ → Nat → List Nat × σ

/-- State of the `Wire` object. -/
structure Wire (σ : Type) where
  txBuffer : List Nat
  rxBuffer : List Nat
  log : List BusEvent
  dev : σ

namespace Wire

variable {σ : Type}

/-- Source `Wire.beginTransmission(address)`: start queuing a write. -/
def beginTransmission (w : Wire σ) (_address : Nat) : Wire σ :=
  { w with txBuffer := [] }

/-- Source `Wire.write(uint8_t)`: queue one byte. -/
def write (w : Wire σ) (b : Nat) : Wire σ :=
  { w with txBuffer := w.txBuffer ++ [b % 256] }

/-- Source `Wire.endTransmission()`: send the queued bytes as one write transaction. -/
def endTransmission (T : Transport σ) (w : Wire σ) : Wire σ :=
  { w with
    txBuffer := []
    log := w.log ++ [BusEvent.write w.txBuffer]
    dev := T.onWrite w.dev w.txBuffer }

/-- Source `Wire.requestFrom(address, quantity)`: the receive buffer is
replaced by the answer of the device, at most `quantity` bytes of it. -/
def requestFrom (T : Transport σ) (w : Wire σ) (_address : Nat) (quantity : Nat) : Wire σ :=
  { w with
    rxBuffer := (((T.onRequest w.dev quantity).1).take quantity).map (fun b => b % 256)
    log := w.log ++ [BusEvent.request quantity]
    dev := (T.onRequest w.dev quantity).2 }

/-- Source `Wire.available()`: number of unread bytes. -/
def available (w : Wire σ) : Nat := w.rxBuffer.length

/-- Source `Wire.read()`: the next unread byte, or `-1` when there is none. -/
def read (w : Wire σ) : Int × Wire σ :=
  match w.rxBuffer with
  | [] => (-1, w)
  | b :: rest => ((b : Int), { w with rxBuffer := rest })

end Wire

/-! ## Driver state -/

/-- The data members of the `PCF85063A` object. Their declarations are in the
header; `year` is kept modulo `65536`, the width `getYear` returns, and every
other member is a byte. -/
structure Fields where
  second : Nat
  minute : Nat
  hour : Nat
  day : Nat
  weekday : Nat
  month : Nat
  year : Nat
  alarm_second : Nat
  alarm_minute : Nat
  alarm_hour : Nat
  alarm_day : Nat
  alarm_weekday : Nat
  control_2 : Nat
  offset : Nat
  deriving DecidableEq, Repr

/-- The seven cached clock members: second, minute, hour, day, weekday, month, year. -/
def Fields.clock (d : Fields) : List Nat :=
  [d.second, d.minute, d.hour, d.day, d.weekday, d.month, d.year]

/-- The five cached alarm members: second, minute, hour, day, weekday. -/
def Fields.alarm (d : Fields) : List Nat :=
  [d.alarm_second, d.alarm_minute, d.alarm_hour, d.alarm_day, d.alarm_weekday]

/-- The driver object together with the `Wire` object it talks through. -/
structure State (σ : Type) where
  drv : Fields
  wire : Wire σ

/-! ## Driver operations -/

section Operations

variable {σ : Type}

/-- Source `setTime`: one write of second, minute, hour starting at the seconds register. -/
def setTime (H : Header) (T : Transport σ) (hour minute second : Nat) (s : State σ) : State σ :=
  let w := s.wire.beginTransmission H.I2C_ADDR
  let w := w.write H.RTC_SECOND_ADDR
  let w := w.write (decToBcd second)
  let w := w.write (decToBcd minute)
  let w := w.write (decToBcd hour)
  { s with wire := w.endTransmission T }

/-- Source `setDate`: `year = yr - 1970;` on the `uint16_t` member, then one
write of day, weekday, month, year starting at the day register. -/
def setDate (H : Header) (T : Transport σ) (weekday day month yr : Nat) (s : State σ) : State σ :=
  let year := (((yr % 65536 : Nat) : Int) - 1970) % 65536
  let d := { s.drv with year := year.toNat }
  let w := s.wire.beginTransmission H.I2C_ADDR
  let w := w.write H.RTC_DAY_ADDR
  let w := w.write (decToBcd day)
  let w := w.write (decToBcd weekday)
  let w := w.write (decToBcd month)
  let w := w.write (decToBcd d.year)
  { drv := d, wire := w.endTransmission T }

/-- Body of the `while (Wire.available())` loop of `readTime`: seven reads,
each masked, converted to `uint8_t` and BCD-decoded. -/
def readTimeBody (s : State σ) : State σ :=
  let r0 := s.wire.read
  let r1 := r0.2.read
  let r2 := r1.2.read
  let r3 := r2.2.read
  let r4 := r3.2.read
  let r5 := r4.2.read
  let r6 := r5.2.read
  { drv := { s.drv with
      second := bcdToDec (toU8 (Int.land r0.1 0x7F))
      minute := bcdToDec (toU8 (Int.land r1.1 0x7F))
      hour := bcdToDec (toU8 (Int.land r2.1 0x3F))
      day := bcdToDec (toU8 (Int.land r3.1 0x3F))
      weekday := bcdToDec (toU8 (Int.land r4.1 0x07))
      month := bcdToDec (toU8 (Int.land r5.1 0x1F))
      year := (bcdToDec (toU8 r6.1) + 1970) % 65536 }
    wire := r6.2 }

/-- The loop `while (Wire.available()) { ... }` of `readTime`. -/
def readTimeLoop (s : State σ) : State σ :=
  if 0 < s.wire.available then readTimeLoop (readTimeBody s) else s
termination_by s.wire.rxBuffer.length
decreasing_by
  rename_i h
  obtain ⟨d, w⟩ := s
  obtain ⟨tx, rx, lg, dv⟩ := w
  cases rx with
  | nil => simp [Wire.available] at h
  | cons b rest =>
    rcases rest with _ | ⟨b1, _ | ⟨b2, _ | ⟨b3, _ | ⟨b4, _ | ⟨b5, _ | ⟨b6, rest⟩⟩⟩⟩⟩⟩ <;>
      (simp [readTimeBody, Wire.read]; try omega)

/-- Source `readTime`: address the seconds register, request seven bytes, decode. -/
def readTime (H : Header) (T : Transport σ) (s : State σ) : State σ :=
  let w := s.wire.beginTransmission H.I2C_ADDR
  let w := w.write H.RTC_SECOND_ADDR
  let w := w.endTransmission T
  let w := w.requestFrom T H.I2C_ADDR 7
  readTimeLoop { s with wire := w }

/-- Source `getSecond`. -/
def getSecond (H : Header) (T : Transport σ) (s : State σ) : Nat × State σ :=
  ((readTime H T s).drv.second, readTime H T s)

/-- Source `getMinute`. -/
def getMinute (H : Header) (T : Transport σ) (s : State σ) : Nat × State σ :=
  ((readTime H T s).drv.minute, readTime H T s)

/-- Source `getHour`. -/
def getHour (H : Header) (T : Transport σ) (s : State σ) : Nat × State σ :=
  ((readTime H T s).drv.hour, readTime H T s)

/-- Source `getDay`. -/
def getDay (H : Header) (T : Transport σ) (s : State σ) : Nat × State σ :=
  ((readTime H T s).drv.day, readTime H T s)

/-- Source `getWeekday`. -/
def getWeekday (H : Header) (T : Transport σ) (s : State σ) : Nat × State σ :=
  ((readTime H T s).drv.weekday, readTime H T s)

/-- Source `getMonth`. -/
def getMonth (H : Header) (T : Transport σ) (s : State σ) : Nat × State σ :=
  ((readTime H T s).drv.month, readTime H T s)

/-- Source `getYear`. -/
def getYear (H : Header) (T : Transport σ) (s : State σ) : Nat × State σ :=
  ((readTime H T s).drv.year, readTime H T s)

/-- The byte `enableAlarm` stores in `control_2`:
`control_2 = RTC_CTRL_2_DEFAULT | RTC_ALARM_AIE; control_2 &= ~RTC_ALARM_AF;`. -/
def enableAlarmByte (H : Header) : Nat :=
  ((H.RTC_CTRL_2_DEFAULT ||| H.RTC_ALARM_AIE) % 256) &&& not8 H.RTC_ALARM_AF

/-- Source `enableAlarm`: one write of `control_2` to the control-2 register. -/
def enableAlarm (H : Header) (T : Transport σ) (s : State σ) : State σ :=
  let d := { s.drv with control_2 := enableAlarmByte H }
  let w := s.wire.beginTransmission H.I2C_ADDR
  let w := w.write H.RTC_CTRL_2
  let w := w.write d.control_2
  { drv := d, wire := w.endTransmission T }

/-- One branch pair of `setAlarm`: `if (x < 99) { x = constrain(x, lo, hi);
x = decToBcd(x); x &= ~RTC_ALARM; } else { x = 0x0; x |= RTC_ALARM; }`. -/
def alarmEncode (x lo hi : Nat) : Nat :=
  if x % 256 < 99 then decToBcd (constrain (x % 256) lo hi) &&& not8 RTC_ALARM
  else (0x0 ||| RTC_ALARM) % 256

/-- Source `setAlarm`: encode the five arguments (they shadow the members,
which are not written), call `enableAlarm`, write the alarm block. -/
def setAlarm (H : Header) (T : Transport σ)
    (alarm_second alarm_minute alarm_hour alarm_day alarm_weekday : Nat) (s : State σ) : State σ :=
  let alarm_second := alarmEncode alarm_second 0 59
  let alarm_minute := alarmEncode alarm_minute 0 59
  let alarm_hour := alarmEncode alarm_hour 0 23
  let alarm_day := alarmEncode alarm_day 1 31
  let alarm_weekday := alarmEncode alarm_weekday 0 6
  let s := enableAlarm H T s
  let w := s.wire.beginTransmission H.I2C_ADDR
  let w := w.write H.RTC_SECOND_ALARM
  let w := w.write alarm_second
  let w := w.write alarm_minute
  let w := w.write alarm_hour
  let w := w.write alarm_day
  let w := w.write alarm_weekday
  { s with wire := w.endTransmission T }

/-- One branch pair of `readAlarm` on the byte `x = Wire.read()`:
`if (RTC_ALARM & x) x = 99; else x = bcdToDec(x & mask);`. -/
def alarmDecode (r : Int) (mask : Nat) : Nat :=
  if RTC_ALARM &&& toU8 r ≠ 0 then 99 else bcdToDec (toU8 r &&& mask)

/-- Body of the `while (Wire.available())` loop of `readAlarm`. -/
def readAlarmBody (s : State σ) : State σ :=
  let r0 := s.wire.read
  let r1 := r0.2.read
  let r2 := r1.2.read
  let r3 := r2.2.read
  let r4 := r3.2.read
  { drv := { s.drv with
      alarm_second := alarmDecode r0.1 (not8 RTC_ALARM)
      alarm_minute := alarmDecode r1.1 (not8 RTC_ALARM)
      alarm_hour := alarmDecode r2.1 0x3F
      alarm_day := alarmDecode r3.1 0x3F
      alarm_weekday := alarmDecode r4.1 0x07 }
    wire := r4.2 }

/-- The loop `while (Wire.available()) { ... }` of `readAlarm`. -/
def readAlarmLoop (s : State σ) : State σ :=
  if 0 < s.wire.available then readAlarmLoop (readAlarmBody s) else s
termination_by s.wire.rxBuffer.length
decreasing_by
  rename_i h
  obtain ⟨d, w⟩ := s
  obtain ⟨tx, rx, lg, dv⟩ := w
  cases rx with
  | nil => simp [Wire.available] at h
  | cons b rest =>
    rcases rest with _ | ⟨b1, _ | ⟨b2, _ | ⟨b3, _ | ⟨b4, rest⟩⟩⟩⟩ <;>
      (simp [readAlarmBody, Wire.read]; try omega)

/-- Source `readAlarm`: address the alarm block, request five bytes, decode. -/
def readAlarm (H : Header) (T : Transport σ) (s : State σ) : State σ :=
  let w := s.wire.beginTransmission H.I2C_ADDR
  let w := w.write H.RTC_SECOND_ALARM
  let w := w.endTransmission T
  let w := w.requestFrom T H.I2C_ADDR 5
  readAlarmLoop { s with wire := w }

/-- Source `getAlarmSecond`. -/
def getAlarmSecond (H : Header) (T : Transport σ) (s : State σ) : Nat × State σ :=
  ((readAlarm H T s).drv.alarm_second, readAlarm H T s)

/-- Source `getAlarmMinute`. -/
def getAlarmMinute (H : Header) (T : Transport σ) (s : State σ) : Nat × State σ :=
  ((readAlarm H T s).drv.alarm_minute, readAlarm H T s)

/-- Source `getAlarmHour`. -/
def getAlarmHour (H : Header) (T : Transport σ) (s : State σ) : Nat × State σ :=
  ((readAlarm H T s).drv.alarm_hour, readAlarm H T s)

/-- Source `getAlarmDay`. -/
def getAlarmDay (H : Header) (T : Transport σ) (s : State σ) : Nat × State σ :=
  ((readAlarm H T s).drv.alarm_day, readAlarm H T s)

/-- Source `getAlarmWeekday`. -/
def getAlarmWeekday (H : Header) (T : Transport σ) (s : State σ) : Nat × State σ :=
  ((readAlarm H T s).drv.alarm_weekday, readAlarm H T s)

/-- The mode byte `timer_reg[1]` built by `timerSet`. -/
def timerModeByte (H : Header) (source_clock : Nat) (int_enable int_pulse : Bool) : Nat :=
  let m := (0 ||| H.RTC_TIMER_TE) % 256
  let m := if int_enable then (m ||| H.RTC_TIMER_TIE) % 256 else m
  let m := if int_pulse then (m ||| H.RTC_TIMER_TI_TP) % 256 else m
  (m ||| (source_clock <<< 3)) % 256

/-- Source `timerSet`: disable the timer, clear control-2, write value and mode. -/
def timerSet (H : Header) (T : Transport σ) (source_clock value : Nat)
    (int_enable int_pulse : Bool) (s : State σ) : State σ :=
  let w := s.wire.beginTransmission H.I2C_ADDR
  let w := w.write H.RTC_TIMER_MODE
  let w := w.write 0x18
  let w := w.endTransmission T
  let w := w.beginTransmission H.I2C_ADDR
  let w := w.write H.RTC_CTRL_2
  let w := w.write 0x00
  let w := w.endTransmission T
  let w := w.beginTransmission H.I2C_ADDR
  let w := w.write H.RTC_TIMER_VAL
  let w := w.write value
  let w := w.write (timerModeByte H source_clock int_enable int_pulse)
  { s with wire := w.endTransmission T }

/-- Source `checkTimerFlag`: `_crtl_2 = RTC_TIMER_FLAG; ... _crtl_2 &= Wire.read();
return _crtl_2;`. -/
def checkTimerFlag (H : Header) (T : Transport σ) (s : State σ) : Bool × State σ :=
  let w := s.wire.beginTransmission H.I2C_ADDR
  let w := w.write H.RTC_CTRL_2
  let w := w.endTransmission T
  let w := w.requestFrom T H.I2C_ADDR 1
  let r := w.read
  (decide (toU8 (Int.land ((H.RTC_TIMER_FLAG % 256 : Nat) : Int) r.1) ≠ 0), { s with wire := r.2 })

/-- Source `reset`: write `0x58` to control-1. -/
def reset (H : Header) (T : Transport σ) (s : State σ) : State σ :=
  let w := s.wire.beginTransmission H.I2C_ADDR
  let w := w.write H.RTC_CTRL_1
  let w := w.write 0x58
  { s with wire := w.endTransmission T }

/-- The byte `setOffset` writes for an accepted value: `128 + offsetValue` as
a byte, bit 7 then replaced by the mode. -/
def offsetByte (mode : Bool) (offsetValue : Int) : Nat :=
  let combinedOffsetByte := toU8 (128 + offsetValue)
  if mode then (combinedOffsetByte ||| (1 <<< 7)) % 256
  else combinedOffsetByte &&& not8 (1 <<< 7)

/-- Source `setOffset`: return at once when the value is outside `[-64, 63]`,
otherwise write the combined byte to the offset register. -/
def setOffset (H : Header) (T : Transport σ) (mode : Bool) (offsetValue : Int)
    (s : State σ) : State σ :=
  if offsetValue < -64 ∨ offsetValue > 63 then s
  else
    let w := s.wire.beginTransmission H.I2C_ADDR
    let w := w.write H.RTC_OFFSET
    let w := w.write (offsetByte mode offsetValue)
    { s with wire := w.endTransmission T }

/-- Body of the loop of `readOffset`: `offset = Wire.read();`. -/
def readOffsetBody (s : State σ) : State σ :=
  let r := s.wire.read
  { drv := { s.drv with offset := toU8 r.1 }, wire := r.2 }

/-- The loop `while (Wire.available()) { ... }` of `readOffset`. -/
def readOffsetLoop (s : State σ) : State σ :=
  if 0 < s.wire.available then readOffsetLoop (readOffsetBody s) else s
termination_by s.wire.rxBuffer.length
decreasing_by
  rename_i h
  obtain ⟨d, w⟩ := s
  obtain ⟨tx, rx, lg, dv⟩ := w
  cases rx with
  | nil => simp [Wire.available] at h
  | cons b rest => simp [readOffsetBody, Wire.read]

/-- Source `readOffset`: address the offset register, request one byte. -/
def readOffset (H : Header) (T : Transport σ) (s : State σ) : State σ :=
  let w := s.wire.beginTransmission H.I2C_ADDR
  let w := w.write H.RTC_OFFSET
  let w := w.endTransmission T
  let w := w.requestFrom T H.I2C_ADDR 1
  readOffsetLoop { s with wire := w }

/-- The arithmetic of `getOffset` on the member `offset`:
`offset &= ~(1 << 7); if (offset & (1 << 6)) offset |= (1 << 7);`. -/
def signExtend7 (offset : Nat) : Nat :=
  let offset := offset &&& not8 (1 <<< 7)
  if offset &&& (1 <<< 6) ≠ 0 then (offset ||| (1 <<< 7)) % 256 else offset

/-- Source `getOffset`: the value returned as `int8_t`, and the state with
the rewritten member `offset`. -/
def getOffset (H : Header) (T : Transport σ) (s : State σ) : Int × State σ :=
  let s := readOffset H T s
  let offset := signExtend7 s.drv.offset
  (toI8 offset, { s with drv := { s.drv with offset := offset } })

/-- Source `getOffsetMode`: bit 7 of the byte just read. -/
def getOffsetMode (H : Header) (T : Transport σ) (s : State σ) : Bool × State σ :=
  let s := readOffset H T s
  (decide (s.drv.offset &&& (1 <<< 7) ≠ 0), s)

end Operations

/-! ## Transports used to state the round-trip and failure properties -/

/-- The chip as a register file with an auto-incrementing address pointer. -/
structure Chip where
  regs : Nat → Nat
  ptr : Nat

/-- Store bytes at consecutive addresses from the pointer on. -/
def Chip.store : Chip → List Nat → Chip
  | c, [] => c
  | c, b :: bs =>
    Chip.store { regs := fun a => if a = c.ptr then b else c.regs a, ptr := c.ptr + 1 } bs

/-- The echoing transport: the first byte of a write sets the address
pointer and the rest is stored from there on; a read returns the stored
bytes from the pointer on. -/
def echo : Transport Chip where
  onWrite c tx :=
    match tx with
    | [] => c
    | a :: bytes => Chip.store { c with ptr := a } bytes
  onRequest c n := ((List.range n).map (fun i => c.regs (c.ptr + i)), { c with ptr := c.ptr + n })

/-- The mock transport that ignores writes and answers every read with the
same given bytes. -/
def scripted (reply : List Nat) : Transport Unit where
  onWrite _ _ := ()
  onRequest _ _ := (reply, ())

/-- The `Wire` object after the read preamble shared by `readTime`,
`readAlarm` and `readOffset`: register `addr` addressed by a one-byte
write, then `n` bytes requested. -/
def burstRead {σ : Type} (H : Header) (T : Transport σ) (addr n : Nat) (w : Wire σ) : Wire σ :=
  (((w.beginTransmission H.I2C_ADDR).write addr).endTransmission T).requestFrom T H.I2C_ADDR n

/-- A driver object with all members zero in front of an idle bus. -/
def State.init {σ : Type} (dev : σ) : State σ where
  drv := ⟨0, 0, 0, 0, 0, 0, 0, 0, 0, 0, 0, 0, 0, 0⟩
  wire := { txBuffer := [], rxBuffer := [], log := [], dev := dev }

/-- A chip with every register zero. -/
def Chip.zero : Chip where
  regs := fun _ => 0
  ptr := 0

/-- A byte is the BCD encoding, by `decToBcd`, of some value of the domain
`lo..hi`. -/
def isBcdOf (lo hi b : Nat) : Prop := ∃ v, v < hi + 1 ∧ lo ≤ v ∧ b = decToBcd v

instance isBcdOf.decidable (lo hi b : Nat) : Decidable (isBcdOf lo hi b) := by
  unfold isBcdOf
  infer_instance

/-! ## Lemmas on the codec -/

theorem land_neg_one (m : Nat) : Int.land (-1) (m : Int) = (m : Int) := by
  show ((Nat.ldiff m 0 : Nat) : Int) = (m : Int)
  congr 1
  apply Nat.eq_of_testBit_eq
  intro i
  simp [Nat.testBit_ldiff]

theorem land_ofNat (b m : Nat) : Int.land (b : Int) (m : Int) = ((b &&& m : Nat) : Int) := rfl

theorem toU8_ofNat (b : Nat) : toU8 (b : Int) = b % 256 := by
  unfold toU8
  omega

theorem toU8_neg_one : toU8 (-1) = 255 := by decide

/-! ## Lemmas on the bus and the read loops -/

section BusLemmas

variable {σ : Type}

theorem read_nil (w : Wire σ) (h : w.rxBuffer = []) : w.read = (-1, w) := by
  simp [Wire.read, h]

theorem read_cons (w : Wire σ) (b : Nat) (rest : List Nat) (h : w.rxBuffer = b :: rest) :
    w.read = ((b : Int), { w with rxBuffer := rest }) := by
  simp [Wire.read, h]

theorem readTimeBody_rx (s : State σ) :
    (readTimeBody s).wire.rxBuffer = s.wire.rxBuffer.drop 7 := by
  obtain ⟨d, tx, rx, lg, dv⟩ := s
  rcases rx with _ | ⟨b0, _ | ⟨b1, _ | ⟨b2, _ | ⟨b3, _ | ⟨b4, _ | ⟨b5, _ | ⟨b6, rest⟩⟩⟩⟩⟩⟩⟩ <;>
    simp [readTimeBody, Wire.read]

theorem readAlarmBody_rx (s : State σ) :
    (readAlarmBody s).wire.rxBuffer = s.wire.rxBuffer.drop 5 := by
  obtain ⟨d, tx, rx, lg, dv⟩ := s
  rcases rx with _ | ⟨b0, _ | ⟨b1, _ | ⟨b2, _ | ⟨b3, _ | ⟨b4, rest⟩⟩⟩⟩⟩ <;>
    simp [readAlarmBody, Wire.read]

theorem readOffsetBody_rx (s : State σ) :
    (readOffsetBody s).wire.rxBuffer = s.wire.rxBuffer.drop 1 := by
  obtain ⟨d, tx, rx, lg, dv⟩ := s
  rcases rx with _ | ⟨b0, rest⟩ <;> simp [readOffsetBody, Wire.read]

theorem readTimeLoop_empty (s : State σ) (h : s.wire.rxBuffer = []) : readTimeLoop s = s := by
  rw [readTimeLoop]
  simp [Wire.available, h]

theorem readTimeLoop_once (s : State σ) (h0 : s.wire.rxBuffer ≠ [])
    (h7 : s.wire.rxBuffer.length ≤ 7) : readTimeLoop s = readTimeBody s := by
  rw [readTimeLoop]
  have hpos : 0 < s.wire.available := by
    simpa [Wire.available, List.length_pos] using h0
  rw [if_pos hpos]
  apply readTimeLoop_empty
  rw [readTimeBody_rx]
  exact List.drop_of_length_le h7

theorem readAlarmLoop_empty (s : State σ) (h : s.wire.rxBuffer = []) : readAlarmLoop s = s := by
  rw [readAlarmLoop]
  simp [Wire.available, h]

theorem readAlarmLoop_once (s : State σ) (h0 : s.wire.rxBuffer ≠ [])
    (h5 : s.wire.rxBuffer.length ≤ 5) : readAlarmLoop s = readAlarmBody s := by
  rw [readAlarmLoop]
  have hpos : 0 < s.wire.available := by
    simpa [Wire.available, List.length_pos] using h0
  rw [if_pos hpos]
  apply readAlarmLoop_empty
  rw [readAlarmBody_rx]
  exact List.drop_of_length_le h5

theorem readOffsetLoop_empty (s : State σ) (h : s.wire.rxBuffer = []) : readOffsetLoop s = s := by
  rw [readOffsetLoop]
  simp [Wire.available, h]

theorem readOffsetLoop_once (s : State σ) (h0 : s.wire.rxBuffer ≠ [])
    (h1 : s.wire.rxBuffer.length ≤ 1) : readOffsetLoop s = readOffsetBody s := by
  rw [readOffsetLoop]
  have hpos : 0 < s.wire.available := by
    simpa [Wire.available, List.length_pos] using h0
  rw [if_pos hpos]
  apply readOffsetLoop_empty
  rw [readOffsetBody_rx]
  exact List.drop_of_length_le h1

end BusLemmas

/-! ## The echoing register file -/

theorem Chip.store_ptr (bs : List Nat) (c : Chip) : (c.store bs).ptr = c.ptr + bs.length := by
  induction bs generalizing c with
  | nil => simp [Chip.store]
  | cons b bs ih => simp [Chip.store, ih]; omega

theorem Chip.store_regs (bs : List Nat) (c : Chip) (a : Nat) :
    (c.store bs).regs a =
      if c.ptr ≤ a ∧ a < c.ptr + bs.length then bs.getD (a - c.ptr) 0 else c.regs a := by
  induction bs generalizing c with
  | nil =>
    have h : ¬ (c.ptr ≤ a ∧ a < c.ptr) := by omega
    simp [Chip.store, h]
  | cons b bs ih =>
    simp only [Chip.store, ih, List.length_cons]
    by_cases h1 : a = c.ptr
    · subst h1
      simp
    · by_cases h2 : c.ptr + 1 ≤ a
      · have h3 : a - c.ptr = (a - (c.ptr + 1)) + 1 := by omega
        have h4 : c.ptr ≤ a := by omega
        by_cases h5 : a < c.ptr + 1 + bs.length
        · have h6 : a < c.ptr + (bs.length + 1) := by omega
          simp [h2, h5, h4, h6, h3]
        · have h6 : ¬ a < c.ptr + (bs.length + 1) := by omega
          simp [h5, h6, h1]
      · have h4 : ¬ c.ptr ≤ a := by omega
        simp [h2, h4, h1]

/-- What the receive buffer holds after the driver addresses register `addr`
of the echoing register file and requests `n` bytes. -/
theorem echo_read (w : Wire Chip) (i2c addr n : Nat) :
    ((((w.beginTransmission i2c).write addr).endTransmission echo).requestFrom echo i2c n).rxBuffer
      = (List.range n).map (fun i => w.dev.regs (addr % 256 + i) % 256) := by
  simp [Wire.requestFrom, Wire.endTransmission, Wire.write, Wire.beginTransmission, echo,
    Chip.store, List.take_of_length_le]

/-- After a write of `bytes` at address `a`, the echoing register file holds
`bytes` at the addresses from `a` on. -/
theorem echo_write_regs (c : Chip) (a : Nat) (bytes : List Nat) (i : Nat)
    (hi : i < bytes.length) : (echo.onWrite c (a :: bytes)).regs (a + i) = bytes.getD i 0 := by
  show (Chip.store { c with ptr := a } bytes).regs (a + i) = _
  rw [Chip.store_regs]
  simp [hi]

/-- A write of `bytes` at address `a` leaves the registers outside
`a .. a + bytes.length - 1` of the echoing register file as they were. -/
theorem echo_write_regs_other (c : Chip) (a : Nat) (bytes : List Nat) (x : Nat)
    (hx : x < a ∨ a + bytes.length ≤ x) : (echo.onWrite c (a :: bytes)).regs x = c.regs x := by
  show (Chip.store { c with ptr := a } bytes).regs x = _
  rw [Chip.store_regs]
  have h : ¬ (a ≤ x ∧ x < a + bytes.length) := by omega
  simp [h]

/-! ## Reads in terms of the bytes received -/

section ReadLemmas

variable {σ : Type}

theorem readTime_eq (H : Header) (T : Transport σ) (s : State σ) :
    readTime H T s = readTimeLoop { s with wire := burstRead H T H.RTC_SECOND_ADDR 7 s.wire } := rfl

theorem readAlarm_eq (H : Header) (T : Transport σ) (s : State σ) :
    readAlarm H T s = readAlarmLoop { s with wire := burstRead H T H.RTC_SECOND_ALARM 5 s.wire } := rfl

theorem readOffset_eq (H : Header) (T : Transport σ) (s : State σ) :
    readOffset H T s = readOffsetLoop { s with wire := burstRead H T H.RTC_OFFSET 1 s.wire } := rfl

theorem burstRead_length (H : Header) (T : Transport σ) (addr n : Nat) (w : Wire σ) :
    (burstRead H T addr n w).rxBuffer.length ≤ n := by
  simp [burstRead, Wire.requestFrom, List.length_take]

/-- With five bytes received, `readAlarm` decodes each member from its own byte. -/
theorem readAlarm_of_reply (H : Header) (T : Transport σ) (s : State σ) (b0 b1 b2 b3 b4 : Nat)
    (hr : (burstRead H T H.RTC_SECOND_ALARM 5 s.wire).rxBuffer = [b0, b1, b2, b3, b4]) :
    (readAlarm H T s).drv.alarm =
      [alarmDecode b0 (not8 RTC_ALARM), alarmDecode b1 (not8 RTC_ALARM),
       alarmDecode b2 0x3F, alarmDecode b3 0x3F, alarmDecode b4 0x07] := by
  rw [readAlarm_eq, readAlarmLoop_once _ (by simp [hr]) (by simp [hr])]
  simp [readAlarmBody, Wire.read, hr, Fields.alarm]

/-- With seven bytes received, `readTime` decodes each member from its own byte. -/
theorem readTime_of_reply (H : Header) (T : Transport σ) (s : State σ)
    (b0 b1 b2 b3 b4 b5 b6 : Nat)
    (hr : (burstRead H T H.RTC_SECOND_ADDR 7 s.wire).rxBuffer = [b0, b1, b2, b3, b4, b5, b6]) :
    (readTime H T s).drv.clock =
      [bcdToDec (toU8 (Int.land b0 0x7F)), bcdToDec (toU8 (Int.land b1 0x7F)),
       bcdToDec (toU8 (Int.land b2 0x3F)), bcdToDec (toU8 (Int.land b3 0x3F)),
       bcdToDec (toU8 (Int.land b4 0x07)), bcdToDec (toU8 (Int.land b5 0x1F)),
       (bcdToDec (toU8 b6) + 1970) % 65536] := by
  rw [readTime_eq, readTimeLoop_once _ (by simp [hr]) (by simp [hr])]
  simp [readTimeBody, Wire.read, hr, Fields.clock]

/-- With one byte received, `readOffset` stores it. -/
theorem readOffset_of_reply (H : Header) (T : Transport σ) (s : State σ) (b : Nat)
    (hr : (burstRead H T H.RTC_OFFSET 1 s.wire).rxBuffer = [b]) :
    (readOffset H T s).drv.offset = toU8 b := by
  rw [readOffset_eq, readOffsetLoop_once _ (by simp [hr]) (by simp [hr])]
  simp [readOffsetBody, Wire.read, hr]

end ReadLemmas

/-! ## BCD round trip -/

/-- C1: for every decimal value `v` with `0 ≤ v ≤ 99`, `bcdToDec (decToBcd v) = v`
in the 8-bit arithmetic of the code. -/
theorem bcd_roundtrip (v : Nat) (hv : v ≤ 99) : bcdToDec (decToBcd v) = v := by
  have h : ∀ n, n < 100 → bcdToDec (decToBcd n) = n := by decide
  exact h v (by omega)

theorem bcd_roundtrip_witness : (59 : Nat) ≤ 99 ∧ bcdToDec (decToBcd 59) = 59 :=
  ⟨by decide, bcd_roundtrip 59 (by decide)⟩

/-! ## Alarm block -/

/-- The bytes the echoing register file returns to `readAlarm` after `setAlarm`. -/
theorem setAlarm_echo_reply (H : Header) (s : State Chip) (a0 a1 a2 a3 a4 : Nat) :
    (burstRead H echo H.RTC_SECOND_ALARM 5 (setAlarm H echo a0 a1 a2 a3 a4 s).wire).rxBuffer =
      [alarmEncode a0 0 59 % 256, alarmEncode a1 0 59 % 256, alarmEncode a2 0 23 % 256,
       alarmEncode a3 1 31 % 256, alarmEncode a4 0 6 % 256] := by
  rw [burstRead, echo_read]
  have hrange : List.range 5 = [0, 1, 2, 3, 4] := by decide
  have hdev : (setAlarm H echo a0 a1 a2 a3 a4 s).wire.dev =
      echo.onWrite (enableAlarm H echo s).wire.dev
        (H.RTC_SECOND_ALARM % 256 :: [alarmEncode a0 0 59 % 256, alarmEncode a1 0 59 % 256,
          alarmEncode a2 0 23 % 256, alarmEncode a3 1 31 % 256, alarmEncode a4 0 6 % 256]) := rfl
  rw [hdev, hrange]
  simp only [List.map_cons, List.map_nil]
  rw [echo_write_regs _ _ _ 0 (by simp), echo_write_regs _ _ _ 1 (by simp),
    echo_write_regs _ _ _ 2 (by simp), echo_write_regs _ _ _ 3 (by simp),
    echo_write_regs _ _ _ 4 (by simp)]
  simp

theorem alarmEncode_lt (x lo hi : Nat) : alarmEncode x lo hi < 256 := by
  unfold alarmEncode
  split
  · exact lt_of_le_of_lt Nat.and_le_left (Nat.mod_lt _ (by decide))
  · exact Nat.mod_lt _ (by decide)

theorem burstRead_byte_lt {σ : Type} (H : Header) (T : Transport σ) (addr n : Nat) (w : Wire σ)
    (b : Nat) (hb : b ∈ (burstRead H T addr n w).rxBuffer) : b < 256 := by
  simp only [burstRead, Wire.requestFrom, List.mem_map] at hb
  obtain ⟨a, _, ha⟩ := hb
  omega

/-- The two write transactions of `setAlarm`. -/
theorem setAlarm_log {σ : Type} (H : Header) (T : Transport σ) (s : State σ)
    (a0 a1 a2 a3 a4 : Nat) :
    (setAlarm H T a0 a1 a2 a3 a4 s).wire.log = s.wire.log ++
      [BusEvent.write [H.RTC_CTRL_2 % 256, enableAlarmByte H % 256],
       BusEvent.write [H.RTC_SECOND_ALARM % 256, alarmEncode a0 0 59, alarmEncode a1 0 59,
         alarmEncode a2 0 23, alarmEncode a3 1 31, alarmEncode a4 0 6]] := by
  simp [setAlarm, enableAlarm, Wire.endTransmission, Wire.write, Wire.beginTransmission,
    Nat.mod_eq_of_lt (alarmEncode_lt _ _ _)]

theorem alarm_field_roundtrip_59 :
    ∀ v, v < 60 → alarmDecode ((alarmEncode v 0 59 % 256 : Nat) : Int) (not8 RTC_ALARM) = v := by
  decide

theorem alarm_field_roundtrip_23 :
    ∀ v, v < 24 → alarmDecode ((alarmEncode v 0 23 % 256 : Nat) : Int) 0x3F = v := by
  decide

theorem alarm_field_roundtrip_31 :
    ∀ v, v < 32 → 1 ≤ v → alarmDecode ((alarmEncode v 1 31 % 256 : Nat) : Int) 0x3F = v := by
  decide

theorem alarm_field_roundtrip_6 :
    ∀ v, v < 7 → alarmDecode ((alarmEncode v 0 6 % 256 : Nat) : Int) 0x07 = v := by
  decide

set_option maxRecDepth 100000 in
theorem alarmDecode_disabled :
    ∀ b, b < 256 → 128 ≤ b → ∀ mask, alarmDecode ((b : Nat) : Int) mask = 99 := by
  have h : ∀ b, b < 256 → 128 ≤ b → RTC_ALARM &&& toU8 ((b : Nat) : Int) ≠ 0 := by decide
  intro b hb hb2 mask
  simp [alarmDecode, h b hb hb2]

/-- C2: for an alarm tuple with second and minute in 0..59, hour in 0..23, day
in 1..31 and weekday in 0..6, `setAlarm` followed by `readAlarm` against the
echoing transport leaves the five cached alarm members equal to the values
passed in. -/
theorem setAlarm_readAlarm_roundtrip (H : Header) (s : State Chip)
    (second minute hour day weekday : Nat)
    (hs : second ≤ 59) (hm : minute ≤ 59) (hh : hour ≤ 23)
    (hd : 1 ≤ day ∧ day ≤ 31) (hw : weekday ≤ 6) :
    (readAlarm H echo (setAlarm H echo second minute hour day weekday s)).drv.alarm =
      [second, minute, hour, day, weekday] := by
  rw [readAlarm_of_reply _ _ _ _ _ _ _ _ (setAlarm_echo_reply H s second minute hour day weekday)]
  rw [alarm_field_roundtrip_59 second (by omega), alarm_field_roundtrip_59 minute (by omega),
    alarm_field_roundtrip_23 hour (by omega), alarm_field_roundtrip_31 day (by omega) hd.1,
    alarm_field_roundtrip_6 weekday (by omega)]

theorem setAlarm_readAlarm_roundtrip_witness :
    ((58 : Nat) ≤ 59 ∧ (59 : Nat) ≤ 59 ∧ (23 : Nat) ≤ 23 ∧ ((1 : Nat) ≤ 31 ∧ (31 : Nat) ≤ 31) ∧
      (6 : Nat) ≤ 6) ∧
    (readAlarm datasheet echo
      (setAlarm datasheet echo 58 59 23 31 6 (State.init Chip.zero))).drv.alarm
      = [58, 59, 23, 31, 6] :=
  ⟨by decide, setAlarm_readAlarm_roundtrip datasheet (State.init Chip.zero) 58 59 23 31 6
    (by decide) (by decide) (by decide) (by decide) (by decide)⟩

/-- C3: for each of the five alarm arguments, when `setAlarm` is called with
the disabled sentinel 99 in that position, the byte written for that field in
the alarm-block transaction is exactly `0x80`, whatever the other four
arguments are. -/
theorem setAlarm_sentinel_byte {σ : Type} (H : Header) (T : Transport σ) (s : State σ)
    (a0 a1 a2 a3 a4 : Nat) :
    (setAlarm H T 99 a1 a2 a3 a4 s).wire.log = s.wire.log ++
      [BusEvent.write [H.RTC_CTRL_2 % 256, enableAlarmByte H % 256],
       BusEvent.write [H.RTC_SECOND_ALARM % 256, 0x80, alarmEncode a1 0 59,
         alarmEncode a2 0 23, alarmEncode a3 1 31, alarmEncode a4 0 6]] ∧
    (setAlarm H T a0 99 a2 a3 a4 s).wire.log = s.wire.log ++
      [BusEvent.write [H.RTC_CTRL_2 % 256, enableAlarmByte H % 256],
       BusEvent.write [H.RTC_SECOND_ALARM % 256, alarmEncode a0 0 59, 0x80,
         alarmEncode a2 0 23, alarmEncode a3 1 31, alarmEncode a4 0 6]] ∧
    (setAlarm H T a0 a1 99 a3 a4 s).wire.log = s.wire.log ++
      [BusEvent.write [H.RTC_CTRL_2 % 256, enableAlarmByte H % 256],
       BusEvent.write [H.RTC_SECOND_ALARM % 256, alarmEncode a0 0 59, alarmEncode a1 0 59,
         0x80, alarmEncode a3 1 31, alarmEncode a4 0 6]] ∧
    (setAlarm H T a0 a1 a2 99 a4 s).wire.log = s.wire.log ++
      [BusEvent.write [H.RTC_CTRL_2 % 256, enableAlarmByte H % 256],
       BusEvent.write [H.RTC_SECOND_ALARM % 256, alarmEncode a0 0 59, alarmEncode a1 0 59,
         alarmEncode a2 0 23, 0x80, alarmEncode a4 0 6]] ∧
    (setAlarm H T a0 a1 a2 a3 99 s).wire.log = s.wire.log ++
      [BusEvent.write [H.RTC_CTRL_2 % 256, enableAlarmByte H % 256],
       BusEvent.write [H.RTC_SECOND_ALARM % 256, alarmEncode a0 0 59, alarmEncode a1 0 59,
         alarmEncode a2 0 23, alarmEncode a3 1 31, 0x80]] := by
  have h59 : alarmEncode 99 0 59 = 0x80 := by decide
  have h23 : alarmEncode 99 0 23 = 0x80 := by decide
  have h31 : alarmEncode 99 1 31 = 0x80 := by decide
  have h6 : alarmEncode 99 0 6 = 0x80 := by decide
  refine ⟨?_, ?_, ?_, ?_, ?_⟩ <;> rw [setAlarm_log]
  · rw [h59]
  · rw [h59]
  · rw [h23]
  · rw [h31]
  · rw [h6]

/-- C4: for each of the five alarm fields and every received byte with bit 7
set (`b ≥ 0x80`), `readAlarm` decodes that field to 99, whatever the low
seven bits of the byte and whatever the other four bytes of the block. -/
theorem readAlarm_disabled_field {σ : Type} (H : Header) (T : Transport σ) (s : State σ)
    (b0 b1 b2 b3 b4 : Nat)
    (hr : (burstRead H T H.RTC_SECOND_ALARM 5 s.wire).rxBuffer = [b0, b1, b2, b3, b4]) :
    (0x80 ≤ b0 → (readAlarm H T s).drv.alarm_second = 99) ∧
    (0x80 ≤ b1 → (readAlarm H T s).drv.alarm_minute = 99) ∧
    (0x80 ≤ b2 → (readAlarm H T s).drv.alarm_hour = 99) ∧
    (0x80 ≤ b3 → (readAlarm H T s).drv.alarm_day = 99) ∧
    (0x80 ≤ b4 → (readAlarm H T s).drv.alarm_weekday = 99) := by
  have hlt : ∀ b ∈ [b0, b1, b2, b3, b4], b < 256 := by
    intro b hb
    rw [← hr] at hb
    exact burstRead_byte_lt H T _ _ _ b hb
  have h := readAlarm_of_reply H T s b0 b1 b2 b3 b4 hr
  simp only [Fields.alarm, List.cons.injEq, and_true] at h
  obtain ⟨h0, h1, h2, h3, h4⟩ := h
  refine ⟨fun hb => ?_, fun hb => ?_, fun hb => ?_, fun hb => ?_, fun hb => ?_⟩
  · rw [h0]; exact alarmDecode_disabled b0 (hlt b0 (by simp)) hb _
  · rw [h1]; exact alarmDecode_disabled b1 (hlt b1 (by simp)) hb _
  · rw [h2]; exact alarmDecode_disabled b2 (hlt b2 (by simp)) hb _
  · rw [h3]; exact alarmDecode_disabled b3 (hlt b3 (by simp)) hb _
  · rw [h4]; exact alarmDecode_disabled b4 (hlt b4 (by simp)) hb _

theorem readAlarm_disabled_field_witness :
    (burstRead datasheet (scripted [0x80, 0xFF, 0x95, 0xC0, 0x87]) datasheet.RTC_SECOND_ALARM 5
        (State.init ()).wire).rxBuffer = [0x80, 0xFF, 0x95, 0xC0, 0x87] ∧
    (readAlarm datasheet (scripted [0x80, 0xFF, 0x95, 0xC0, 0x87]) (State.init ())).drv.alarm_second
      = 99 ∧
    (readAlarm datasheet (scripted [0x80, 0xFF, 0x95, 0xC0, 0x87]) (State.init ())).drv.alarm_weekday
      = 99 :=
  ⟨by decide,
   (readAlarm_disabled_field datasheet (scripted [0x80, 0xFF, 0x95, 0xC0, 0x87]) (State.init ())
      0x80 0xFF 0x95 0xC0 0x87 (by decide)).1 (by decide),
   (readAlarm_disabled_field datasheet (scripted [0x80, 0xFF, 0x95, 0xC0, 0x87]) (State.init ())
      0x80 0xFF 0x95 0xC0 0x87 (by decide)).2.2.2.2 (by decide)⟩

/-! ## Offset register -/

theorem burstRead_echo_rx (H : Header) (addr n : Nat) (w : Wire Chip) :
    (burstRead H echo addr n w).rxBuffer
      = (List.range n).map (fun i => w.dev.regs (addr % 256 + i) % 256) :=
  echo_read w H.I2C_ADDR addr n

theorem burstRead_echo_regs (H : Header) (addr n : Nat) (w : Wire Chip) :
    (burstRead H echo addr n w).dev.regs = w.dev.regs := by
  simp [burstRead, Wire.requestFrom, Wire.endTransmission, Wire.write, Wire.beginTransmission,
    echo, Chip.store]

/-- Against the echoing register file `readOffset` stores the content of the
offset register and leaves the registers as they were. -/
theorem readOffset_echo (H : Header) (s : State Chip) :
    (readOffset H echo s).drv.offset = s.wire.dev.regs (H.RTC_OFFSET % 256) % 256 ∧
    (readOffset H echo s).wire.dev.regs = s.wire.dev.regs := by
  have hrx : (burstRead H echo H.RTC_OFFSET 1 s.wire).rxBuffer
      = [s.wire.dev.regs (H.RTC_OFFSET % 256) % 256] := by
    rw [burstRead_echo_rx]
    rfl
  constructor
  · rw [readOffset_of_reply H echo s _ hrx, toU8_ofNat]
    omega
  · rw [readOffset_eq, readOffsetLoop_once _ (by simp [hrx]) (by simp [hrx])]
    simp only [readOffsetBody, Wire.read, hrx]
    exact burstRead_echo_regs H _ _ _

theorem setOffset_echo_reg (H : Header) (s : State Chip) (mode : Bool) (v : Int)
    (h1 : -64 ≤ v) (h2 : v ≤ 63) :
    (setOffset H echo mode v s).wire.dev.regs (H.RTC_OFFSET % 256) = offsetByte mode v % 256 := by
  have h : ¬ (v < -64 ∨ v > 63) := by omega
  simp only [setOffset, h, if_false]
  have hdev : (Wire.endTransmission echo (((s.wire.beginTransmission H.I2C_ADDR).write
      H.RTC_OFFSET).write (offsetByte mode v))).dev
      = echo.onWrite s.wire.dev (H.RTC_OFFSET % 256 :: [offsetByte mode v % 256]) := rfl
  rw [hdev]
  exact echo_write_regs _ _ _ 0 (by simp)

theorem offset_codec_roundtrip (mode : Bool) :
    ∀ k : Nat, k < 128 →
      toI8 (signExtend7 (offsetByte mode ((k : Int) - 64) % 256 % 256)) = (k : Int) - 64 ∧
      decide (offsetByte mode ((k : Int) - 64) % 256 % 256 &&& (1 <<< 7) ≠ 0) = mode := by
  cases mode <;> decide

/-- C5: for every offset `v` in `[-64, 63]` and either mode, `setOffset mode v`
against the echoing transport followed by `getOffset` and `getOffsetMode`, in
either order, returns `v` and `mode`. -/
theorem setOffset_getOffset_roundtrip (H : Header) (s : State Chip) (mode : Bool) (v : Int)
    (h1 : -64 ≤ v) (h2 : v ≤ 63) :
    (getOffset H echo (setOffset H echo mode v s)).1 = v ∧
    (getOffsetMode H echo (getOffset H echo (setOffset H echo mode v s)).2).1 = mode ∧
    (getOffsetMode H echo (setOffset H echo mode v s)).1 = mode ∧
    (getOffset H echo (getOffsetMode H echo (setOffset H echo mode v s)).2).1 = v := by
  obtain ⟨k, hk, rfl⟩ : ∃ k : Nat, k < 128 ∧ v = (k : Int) - 64 :=
    ⟨(v + 64).toNat, by omega, by omega⟩
  have hcodec := offset_codec_roundtrip mode k hk
  have hreg := setOffset_echo_reg H s mode ((k : Int) - 64) h1 h2
  have hA := readOffset_echo H (setOffset H echo mode ((k : Int) - 64) s)
  have hB := readOffset_echo H (getOffset H echo (setOffset H echo mode ((k : Int) - 64) s)).2
  have hC := readOffset_echo H (getOffsetMode H echo (setOffset H echo mode ((k : Int) - 64) s)).2
  have hB2 : (getOffset H echo (setOffset H echo mode ((k : Int) - 64) s)).2.wire.dev.regs
      = (setOffset H echo mode ((k : Int) - 64) s).wire.dev.regs := hA.2
  have hC2 : (getOffsetMode H echo (setOffset H echo mode ((k : Int) - 64) s)).2.wire.dev.regs
      = (setOffset H echo mode ((k : Int) - 64) s).wire.dev.regs := hA.2
  rw [hB2, hreg] at hB
  rw [hC2, hreg] at hC
  rw [hreg] at hA
  refine ⟨?_, ?_, ?_, ?_⟩
  · show toI8 (signExtend7 (readOffset H echo _).drv.offset) = _
    rw [hA.1]
    exact hcodec.1
  · show decide ((readOffset H echo _).drv.offset &&& (1 <<< 7) ≠ 0) = mode
    rw [hB.1]
    exact hcodec.2
  · show decide ((readOffset H echo _).drv.offset &&& (1 <<< 7) ≠ 0) = mode
    rw [hA.1]
    exact hcodec.2
  · show toI8 (signExtend7 (readOffset H echo _).drv.offset) = _
    rw [hC.1]
    exact hcodec.1

theorem setOffset_getOffset_roundtrip_witness :
    ((-64 : Int) ≤ -64 ∧ (-64 : Int) ≤ 63) ∧
    (getOffset datasheet echo (setOffset datasheet echo true (-64) (State.init Chip.zero))).1
      = -64 ∧
    (getOffsetMode datasheet echo
      (getOffset datasheet echo (setOffset datasheet echo true (-64) (State.init Chip.zero))).2).1
      = true :=
  ⟨by decide,
   (setOffset_getOffset_roundtrip datasheet (State.init Chip.zero) true (-64)
      (by decide) (by decide)).1,
   (setOffset_getOffset_roundtrip datasheet (State.init Chip.zero) true (-64)
      (by decide) (by decide)).2.1⟩

/-- C6: for an offset value below -64 or above 63 and either mode, `setOffset`
returns at once: no bus transaction is logged, the device is not touched and
no member of the driver changes. -/
theorem setOffset_out_of_range {σ : Type} (H : Header) (T : Transport σ) (s : State σ)
    (mode : Bool) (offsetValue : Int) (h : offsetValue < -64 ∨ 63 < offsetValue) :
    (setOffset H T mode offsetValue s).wire.log = s.wire.log ∧
    (setOffset H T mode offsetValue s).drv = s.drv ∧
    setOffset H T mode offsetValue s = s := by
  have h' : offsetValue < -64 ∨ offsetValue > 63 := h
  simp [setOffset, h']

theorem setOffset_out_of_range_witness :
    ((64 : Int) < -64 ∨ (63 : Int) < 64) ∧
    (setOffset datasheet echo false 64 (State.init Chip.zero)).wire.log = [] ∧
    (setOffset datasheet echo true (-65) (State.init Chip.zero)).wire.log = [] :=
  ⟨by decide,
   (setOffset_out_of_range datasheet echo (State.init Chip.zero) false 64 (by decide)).1,
   (setOffset_out_of_range datasheet echo (State.init Chip.zero) true (-65) (by decide)).1⟩

/-! ## Time and date -/

theorem setDate_year (yr : Nat) (h1 : 1970 ≤ yr) (h2 : yr < 65536) :
    ((((yr % 65536 : Nat) : Int) - 1970) % 65536).toNat = yr - 1970 := by
  omega

/-- The write transaction of `setDate`. -/
theorem setDate_log {σ : Type} (H : Header) (T : Transport σ) (s : State σ)
    (weekday day month yr : Nat) :
    (setDate H T weekday day month yr s).wire.log = s.wire.log ++
      [BusEvent.write [H.RTC_DAY_ADDR % 256, decToBcd day, decToBcd weekday, decToBcd month,
        decToBcd ((((yr % 65536 : Nat) : Int) - 1970) % 65536).toNat]] := by
  have hb : ∀ x, decToBcd x % 256 = decToBcd x := fun x => Nat.mod_mod _ _
  simp [setDate, Wire.endTransmission, Wire.write, Wire.beginTransmission, hb]

/-- The bytes the echoing register file returns to `readTime` after `setDate`,
when the day register lies three addresses after the seconds register. -/
theorem setDate_echo_reply (H : Header) (s : State Chip) (weekday day month yr : Nat)
    (haddr : H.RTC_DAY_ADDR % 256 = H.RTC_SECOND_ADDR % 256 + 3) :
    (burstRead H echo H.RTC_SECOND_ADDR 7 (setDate H echo weekday day month yr s).wire).rxBuffer =
      [s.wire.dev.regs (H.RTC_SECOND_ADDR % 256) % 256,
       s.wire.dev.regs (H.RTC_SECOND_ADDR % 256 + 1) % 256,
       s.wire.dev.regs (H.RTC_SECOND_ADDR % 256 + 2) % 256,
       decToBcd day, decToBcd weekday, decToBcd month,
       decToBcd ((((yr % 65536 : Nat) : Int) - 1970) % 65536).toNat] := by
  rw [burstRead_echo_rx]
  have hrange : List.range 7 = [0, 1, 2, 3, 4, 5, 6] := by decide
  have hdev : (setDate H echo weekday day month yr s).wire.dev =
      echo.onWrite s.wire.dev
        (H.RTC_DAY_ADDR % 256 :: [decToBcd day % 256, decToBcd weekday % 256,
          decToBcd month % 256,
          decToBcd ((((yr % 65536 : Nat) : Int) - 1970) % 65536).toNat % 256]) := rfl
  have hb : ∀ x, decToBcd x % 256 = decToBcd x := fun x => Nat.mod_mod _ _
  have e3 : H.RTC_SECOND_ADDR % 256 + 3 = H.RTC_DAY_ADDR % 256 + 0 := by omega
  have e4 : H.RTC_SECOND_ADDR % 256 + 4 = H.RTC_DAY_ADDR % 256 + 1 := by omega
  have e5 : H.RTC_SECOND_ADDR % 256 + 5 = H.RTC_DAY_ADDR % 256 + 2 := by omega
  have e6 : H.RTC_SECOND_ADDR % 256 + 6 = H.RTC_DAY_ADDR % 256 + 3 := by omega
  rw [hdev, hrange]
  simp only [List.map_cons, List.map_nil]
  rw [e3, e4, e5, e6]
  rw [echo_write_regs _ _ _ 0 (by simp), echo_write_regs _ _ _ 1 (by simp),
    echo_write_regs _ _ _ 2 (by simp), echo_write_regs _ _ _ 3 (by simp),
    echo_write_regs_other _ _ _ (H.RTC_SECOND_ADDR % 256 + 0) (by omega),
    echo_write_regs_other _ _ _ (H.RTC_SECOND_ADDR % 256 + 1) (by omega),
    echo_write_regs_other _ _ _ (H.RTC_SECOND_ADDR % 256 + 2) (by omega)]
  simp [hb]

/-- The bytes the echoing register file returns to `readTime` after `setTime`. -/
theorem setTime_echo_reply (H : Header) (s : State Chip) (hour minute second : Nat) :
    (burstRead H echo H.RTC_SECOND_ADDR 7 (setTime H echo hour minute second s).wire).rxBuffer =
      [decToBcd second, decToBcd minute, decToBcd hour,
       s.wire.dev.regs (H.RTC_SECOND_ADDR % 256 + 3) % 256,
       s.wire.dev.regs (H.RTC_SECOND_ADDR % 256 + 4) % 256,
       s.wire.dev.regs (H.RTC_SECOND_ADDR % 256 + 5) % 256,
       s.wire.dev.regs (H.RTC_SECOND_ADDR % 256 + 6) % 256] := by
  rw [burstRead_echo_rx]
  have hrange : List.range 7 = [0, 1, 2, 3, 4, 5, 6] := by decide
  have hdev : (setTime H echo hour minute second s).wire.dev =
      echo.onWrite s.wire.dev
        (H.RTC_SECOND_ADDR % 256 :: [decToBcd second % 256, decToBcd minute % 256,
          decToBcd hour % 256]) := rfl
  have hb : ∀ x, decToBcd x % 256 = decToBcd x := fun x => Nat.mod_mod _ _
  rw [hdev, hrange]
  simp only [List.map_cons, List.map_nil]
  rw [echo_write_regs _ _ _ 0 (by simp), echo_write_regs _ _ _ 1 (by simp),
    echo_write_regs _ _ _ 2 (by simp),
    echo_write_regs_other _ _ _ (H.RTC_SECOND_ADDR % 256 + 3) (by simp),
    echo_write_regs_other _ _ _ (H.RTC_SECOND_ADDR % 256 + 4) (by simp),
    echo_write_regs_other _ _ _ (H.RTC_SECOND_ADDR % 256 + 5) (by simp),
    echo_write_regs_other _ _ _ (H.RTC_SECOND_ADDR % 256 + 6) (by simp)]
  simp [hb]

theorem time_field_roundtrip_7F :
    ∀ v : Nat, v < 60 → bcdToDec (toU8 (Int.land ((decToBcd v : Nat) : Int) 0x7F)) = v := by
  decide

theorem time_field_roundtrip_3F :
    ∀ v : Nat, v < 32 → bcdToDec (toU8 (Int.land ((decToBcd v : Nat) : Int) 0x3F)) = v := by
  decide

theorem time_field_roundtrip_07 :
    ∀ v : Nat, v < 7 → bcdToDec (toU8 (Int.land ((decToBcd v : Nat) : Int) 0x07)) = v := by
  decide

theorem time_field_roundtrip_1F :
    ∀ v : Nat, v < 13 → bcdToDec (toU8 (Int.land ((decToBcd v : Nat) : Int) 0x1F)) = v := by
  decide

theorem year_roundtrip :
    ∀ k : Nat, k < 100 → (bcdToDec (toU8 ((decToBcd k : Nat) : Int)) + 1970) % 65536 = 1970 + k := by
  decide

/-- C7: for weekday in 0..6, day in 1..31, month in 1..12 and year in
1970..2069, `setDate` writes the year byte `decToBcd (year - 1970)`, and a
following `readTime` against the echoing transport (day register three
addresses after the seconds register) leaves the cached weekday, day, month
and year equal to the inputs. -/
theorem setDate_readTime_roundtrip (H : Header) (s : State Chip) (weekday day month year : Nat)
    (haddr : H.RTC_DAY_ADDR % 256 = H.RTC_SECOND_ADDR % 256 + 3)
    (hw : weekday ≤ 6) (hd : 1 ≤ day ∧ day ≤ 31) (hm : 1 ≤ month ∧ month ≤ 12)
    (hy : 1970 ≤ year ∧ year ≤ 2069) :
    (setDate H echo weekday day month year s).wire.log = s.wire.log ++
      [BusEvent.write [H.RTC_DAY_ADDR % 256, decToBcd day, decToBcd weekday, decToBcd month,
        decToBcd (year - 1970)]] ∧
    (readTime H echo (setDate H echo weekday day month year s)).drv.weekday = weekday ∧
    (readTime H echo (setDate H echo weekday day month year s)).drv.day = day ∧
    (readTime H echo (setDate H echo weekday day month year s)).drv.month = month ∧
    (readTime H echo (setDate H echo weekday day month year s)).drv.year = year := by
  have hyr := setDate_year year hy.1 (by omega)
  have h := readTime_of_reply H echo _ _ _ _ _ _ _ _
    (setDate_echo_reply H s weekday day month year haddr)
  rw [hyr] at h
  simp only [Fields.clock, List.cons.injEq, and_true] at h
  obtain ⟨-, -, -, h3, h4, h5, h6⟩ := h
  refine ⟨?_, ?_, ?_, ?_, ?_⟩
  · rw [setDate_log, hyr]
  · rw [h4]; exact time_field_roundtrip_07 weekday (by omega)
  · rw [h3]; exact time_field_roundtrip_3F day (by omega)
  · rw [h5]; exact time_field_roundtrip_1F month (by omega)
  · rw [h6, year_roundtrip (year - 1970) (by omega)]
    omega

theorem setDate_readTime_roundtrip_witness :
    (datasheet.RTC_DAY_ADDR % 256 = datasheet.RTC_SECOND_ADDR % 256 + 3 ∧ (3 : Nat) ≤ 6 ∧
      ((1 : Nat) ≤ 15 ∧ (15 : Nat) ≤ 31) ∧ ((1 : Nat) ≤ 6 ∧ (6 : Nat) ≤ 12) ∧
      ((1970 : Nat) ≤ 2024 ∧ (2024 : Nat) ≤ 2069)) ∧
    decToBcd (2024 - 1970) = 0x54 ∧
    (setDate datasheet echo 3 15 6 2024 (State.init Chip.zero)).wire.log =
      (State.init Chip.zero).wire.log ++
        [BusEvent.write [datasheet.RTC_DAY_ADDR % 256, decToBcd 15, decToBcd 3, decToBcd 6,
          decToBcd (2024 - 1970)]] ∧
    (readTime datasheet echo (setDate datasheet echo 3 15 6 2024 (State.init Chip.zero))).drv.weekday
      = 3 ∧
    (readTime datasheet echo (setDate datasheet echo 3 15 6 2024 (State.init Chip.zero))).drv.day
      = 15 ∧
    (readTime datasheet echo (setDate datasheet echo 3 15 6 2024 (State.init Chip.zero))).drv.month
      = 6 ∧
    (readTime datasheet echo (setDate datasheet echo 3 15 6 2024 (State.init Chip.zero))).drv.year
      = 2024 :=
  ⟨by decide, by decide,
   setDate_readTime_roundtrip datasheet (State.init Chip.zero) 3 15 6 2024
     (by decide) (by decide) (by decide) (by decide) (by decide)⟩

/-- C8: for hour in 0..23, minute in 0..59 and second in 0..59, `setTime`
followed by `readTime` against the echoing transport leaves the cached hour,
minute and second equal to the inputs. -/
theorem setTime_readTime_roundtrip (H : Header) (s : State Chip) (hour minute second : Nat)
    (hh : hour ≤ 23) (hm : minute ≤ 59) (hs : second ≤ 59) :
    (readTime H echo (setTime H echo hour minute second s)).drv.hour = hour ∧
    (readTime H echo (setTime H echo hour minute second s)).drv.minute = minute ∧
    (readTime H echo (setTime H echo hour minute second s)).drv.second = second := by
  have h := readTime_of_reply H echo _ _ _ _ _ _ _ _ (setTime_echo_reply H s hour minute second)
  simp only [Fields.clock, List.cons.injEq, and_true] at h
  obtain ⟨h0, h1, h2, -⟩ := h
  refine ⟨?_, ?_, ?_⟩
  · rw [h2]; exact time_field_roundtrip_3F hour (by omega)
  · rw [h1]; exact time_field_roundtrip_7F minute (by omega)
  · rw [h0]; exact time_field_roundtrip_7F second (by omega)

theorem setTime_readTime_roundtrip_witness :
    ((23 : Nat) ≤ 23 ∧ (59 : Nat) ≤ 59 ∧ (58 : Nat) ≤ 59) ∧
    (readTime datasheet echo (setTime datasheet echo 23 59 58 (State.init Chip.zero))).drv.hour
      = 23 ∧
    (readTime datasheet echo (setTime datasheet echo 23 59 58 (State.init Chip.zero))).drv.minute
      = 59 ∧
    (readTime datasheet echo (setTime datasheet echo 23 59 58 (State.init Chip.zero))).drv.second
      = 58 :=
  ⟨by decide,
   setTime_readTime_roundtrip datasheet (State.init Chip.zero) 23 59 58
     (by decide) (by decide) (by decide)⟩

/-! ## Short replies -/

/-- C9, as the code behaves: `readTime` answered with one byte instead of
seven overwrites all seven cached clock members (the six missing bytes are
decoded from the `-1` that `Wire.read()` returns), and `readAlarm` answered
with one byte instead of five overwrites all five cached alarm members. -/
theorem short_reply_overwrites :
    (burstRead datasheet (scripted [0x12]) datasheet.RTC_SECOND_ADDR 7
        (State.init ()).wire).rxBuffer.length = 1 ∧
    (readTime datasheet (scripted [0x12]) (State.init ())).drv.clock
      = [12, 85, 45, 45, 7, 25, 2135] ∧
    (readTime datasheet (scripted [0x12]) (State.init ())).drv.clock
      ≠ (State.init ()).drv.clock ∧
    (burstRead datasheet (scripted [0x12]) datasheet.RTC_SECOND_ALARM 5
        (State.init ()).wire).rxBuffer.length = 1 ∧
    (readAlarm datasheet (scripted [0x12]) (State.init ())).drv.alarm = [12, 99, 99, 99, 99] ∧
    (readAlarm datasheet (scripted [0x12]) (State.init ())).drv.alarm
      ≠ (State.init ()).drv.alarm := by
  have hT : (readTime datasheet (scripted [0x12]) (State.init ())).drv.clock
      = [12, 85, 45, 45, 7, 25, 2135] := by
    rw [readTime_eq, readTimeLoop_once _ (by decide) (by decide)]
    simp only [readTimeBody, Fields.clock]
    rw [read_cons _ 0x12 [] (by decide)]
    simp only [read_nil, toU8_neg_one,
      show Int.land (-1) 0x7F = 0x7F from land_neg_one 0x7F,
      show Int.land (-1) 0x3F = 0x3F from land_neg_one 0x3F,
      show Int.land (-1) 0x07 = 0x07 from land_neg_one 0x07,
      show Int.land (-1) 0x1F = 0x1F from land_neg_one 0x1F]
    decide
  have hA : (readAlarm datasheet (scripted [0x12]) (State.init ())).drv.alarm
      = [12, 99, 99, 99, 99] := by
    rw [readAlarm_eq, readAlarmLoop_once _ (by decide) (by decide)]
    simp only [readAlarmBody, Fields.alarm]
    rw [read_cons _ 0x12 [] (by decide)]
    simp only [read_nil, toU8_neg_one]
    decide
  refine ⟨by decide, hT, ?_, by decide, hA, ?_⟩
  · rw [hT]; decide
  · rw [hA]; decide

/-- C9, amended: when the reply to the burst read is empty, `readTime` leaves
every cached member unchanged, the seven clock members among them, and
`readAlarm` answered with no byte leaves every cached member unchanged, the
five alarm members among them. -/
theorem empty_reply_keeps_cache {σ : Type} (H : Header) (T : Transport σ) (s : State σ) :
    ((burstRead H T H.RTC_SECOND_ADDR 7 s.wire).rxBuffer = [] →
      (readTime H T s).drv = s.drv ∧ (readTime H T s).drv.clock = s.drv.clock) ∧
    ((burstRead H T H.RTC_SECOND_ALARM 5 s.wire).rxBuffer = [] →
      (readAlarm H T s).drv = s.drv ∧ (readAlarm H T s).drv.alarm = s.drv.alarm) := by
  constructor
  · intro h
    have e : (readTime H T s).drv = s.drv := by
      rw [readTime_eq, readTimeLoop_empty _ h]
    exact ⟨e, by rw [e]⟩
  · intro h
    have e : (readAlarm H T s).drv = s.drv := by
      rw [readAlarm_eq, readAlarmLoop_empty _ h]
    exact ⟨e, by rw [e]⟩

theorem empty_reply_keeps_cache_witness :
    (burstRead datasheet (scripted []) datasheet.RTC_SECOND_ADDR 7
        (State.init ()).wire).rxBuffer = [] ∧
    (readTime datasheet (scripted []) (State.init ())).drv.clock = (State.init ()).drv.clock ∧
    (readAlarm datasheet (scripted []) (State.init ())).drv.alarm = (State.init ()).drv.alarm :=
  ⟨by decide,
   ((empty_reply_keeps_cache datasheet (scripted []) (State.init ())).1 (by decide)).2,
   ((empty_reply_keeps_cache datasheet (scripted []) (State.init ())).2 (by decide)).2⟩

/-! ## Control-2 register -/

theorem enableAlarmByte_lt (H : Header) : enableAlarmByte H < 256 :=
  lt_of_le_of_lt Nat.and_le_left (Nat.mod_lt _ (by decide))

theorem enableAlarmByte_aie (H : Header) (hA : H.RTC_ALARM_AIE < 256)
    (hAF : H.RTC_ALARM_AIE &&& H.RTC_ALARM_AF = 0) :
    enableAlarmByte H &&& H.RTC_ALARM_AIE = H.RTC_ALARM_AIE := by
  unfold enableAlarmByte not8
  apply Nat.eq_of_testBit_eq
  intro i
  have h255 : (255 : Nat).testBit i = decide (i < 8) := Nat.testBit_two_pow_sub_one 8 i
  have hm : ∀ x : Nat, (x % 256).testBit i = (decide (i < 8) && x.testBit i) :=
    fun x => Nat.testBit_mod_two_pow x 8 i
  have hlt : H.RTC_ALARM_AIE.testBit i = true → i < 8 := by
    intro h
    by_contra hge
    have hpow : H.RTC_ALARM_AIE < 2 ^ i :=
      lt_of_lt_of_le hA (by
        calc 256 = 2 ^ 8 := by norm_num
          _ ≤ 2 ^ i := Nat.pow_le_pow_right (by norm_num) (by omega))
    rw [Nat.testBit_lt_two_pow hpow] at h
    exact Bool.noConfusion h
  have hd : (H.RTC_ALARM_AIE.testBit i && H.RTC_ALARM_AF.testBit i) = false := by
    rw [← Nat.testBit_and, hAF, Nat.zero_testBit]
  simp only [Nat.testBit_and, Nat.testBit_or, Nat.testBit_xor, h255, hm]
  cases hAi : H.RTC_ALARM_AIE.testBit i <;> cases hF : H.RTC_ALARM_AF.testBit i <;>
    cases hD : H.RTC_CTRL_2_DEFAULT.testBit i <;> simp_all

theorem enableAlarmByte_af (H : Header) : enableAlarmByte H &&& H.RTC_ALARM_AF = 0 := by
  unfold enableAlarmByte not8
  apply Nat.eq_of_testBit_eq
  intro i
  have h255 : (255 : Nat).testBit i = decide (i < 8) := Nat.testBit_two_pow_sub_one 8 i
  have hm : ∀ x : Nat, (x % 256).testBit i = (decide (i < 8) && x.testBit i) :=
    fun x => Nat.testBit_mod_two_pow x 8 i
  simp only [Nat.testBit_and, Nat.testBit_or, Nat.testBit_xor, h255, hm, Nat.zero_testBit]
  cases hAi : H.RTC_ALARM_AIE.testBit i <;> cases hF : H.RTC_ALARM_AF.testBit i <;>
    cases hD : H.RTC_CTRL_2_DEFAULT.testBit i <;> simp

/-- C10: from every prior state `enableAlarm` performs exactly one write
transaction and no read: the control-2 address followed by one byte. The byte
is the constant `(RTC_CTRL_2_DEFAULT | RTC_ALARM_AIE) & ~RTC_ALARM_AF` of the
header, whatever control-2 held before; its alarm-interrupt-enable bit is set
(the flag being a byte value disjoint from the alarm flag) and its alarm-flag
bit is clear; on the echoing register file control-2 holds exactly that byte
afterwards. -/
theorem enableAlarm_single_write {σ : Type} (H : Header) (T : Transport σ) (s : State σ)
    (hA : H.RTC_ALARM_AIE < 256) (hAF : H.RTC_ALARM_AIE &&& H.RTC_ALARM_AF = 0) :
    (enableAlarm H T s).wire.log =
      s.wire.log ++ [BusEvent.write [H.RTC_CTRL_2 % 256, enableAlarmByte H]] ∧
    (enableAlarm H T s).wire.dev = T.onWrite s.wire.dev [H.RTC_CTRL_2 % 256, enableAlarmByte H] ∧
    (enableAlarm H T s).drv.control_2 = enableAlarmByte H ∧
    enableAlarmByte H =
      ((H.RTC_CTRL_2_DEFAULT ||| H.RTC_ALARM_AIE) % 256) &&& (255 ^^^ (H.RTC_ALARM_AF % 256)) ∧
    enableAlarmByte H &&& H.RTC_ALARM_AIE = H.RTC_ALARM_AIE ∧
    enableAlarmByte H &&& H.RTC_ALARM_AF = 0 ∧
    (∀ c : State Chip,
      (enableAlarm H echo c).wire.dev.regs (H.RTC_CTRL_2 % 256) = enableAlarmByte H) := by
  have hb : enableAlarmByte H % 256 = enableAlarmByte H := Nat.mod_eq_of_lt (enableAlarmByte_lt H)
  refine ⟨?_, ?_, rfl, rfl, enableAlarmByte_aie H hA hAF, enableAlarmByte_af H, ?_⟩
  · simp [enableAlarm, Wire.endTransmission, Wire.write, Wire.beginTransmission, hb]
  · simp [enableAlarm, Wire.endTransmission, Wire.write, Wire.beginTransmission, hb]
  · intro c
    have hdev : (enableAlarm H echo c).wire.dev =
        echo.onWrite c.wire.dev (H.RTC_CTRL_2 % 256 :: [enableAlarmByte H % 256]) := rfl
    rw [hdev, hb]
    exact echo_write_regs _ _ _ 0 (by simp)

theorem enableAlarm_single_write_witness :
    (datasheet.RTC_ALARM_AIE < 256 ∧ datasheet.RTC_ALARM_AIE &&& datasheet.RTC_ALARM_AF = 0) ∧
    enableAlarmByte datasheet = 0x80 ∧
    (enableAlarm datasheet echo (State.init Chip.zero)).wire.log =
      (State.init Chip.zero).wire.log ++
        [BusEvent.write [datasheet.RTC_CTRL_2 % 256, enableAlarmByte datasheet]] :=
  ⟨by decide, by decide,
   (enableAlarm_single_write datasheet echo (State.init Chip.zero) (by decide) (by decide)).1⟩

/-! ## Shared lemmas for the write transactions and the decoding masks -/

theorem decToBcd_mod (x : Nat) : decToBcd x % 256 = decToBcd x := Nat.mod_mod _ _

theorem decToBcd_congr (x y : Nat) (h : x % 256 = y % 256) : decToBcd x = decToBcd y := by
  unfold decToBcd
  rw [h]

theorem bcdToDec_lt (b : Nat) : bcdToDec b < 256 := Nat.mod_lt _ (by decide)

theorem toU8_land (b m : Nat) (hm : m < 256) :
    toU8 (Int.land (b : Int) (m : Int)) = b &&& m := by
  rw [land_ofNat, toU8_ofNat]
  exact Nat.mod_eq_of_lt (lt_of_le_of_lt Nat.and_le_right hm)

/-- The write transaction of `setTime`. -/
theorem setTime_log {σ : Type} (H : Header) (T : Transport σ) (s : State σ)
    (hour minute second : Nat) :
    (setTime H T hour minute second s).wire.log = s.wire.log ++
      [BusEvent.write [H.RTC_SECOND_ADDR % 256, decToBcd second, decToBcd minute,
        decToBcd hour]] := by
  simp [setTime, Wire.endTransmission, Wire.write, Wire.beginTransmission, decToBcd_mod]

/-- The year byte of `setDate` only depends on `year - 1970` modulo 256. -/
theorem setDate_year_byte (yr : Nat) :
    decToBcd ((((yr % 65536 : Nat) : Int) - 1970) % 65536).toNat =
      decToBcd (((yr : Int) - 1970) % 256).toNat := by
  apply decToBcd_congr
  omega

/-- With seven bytes received, `readTime` decodes each member from its own
byte, masked on the natural numbers. -/
theorem readTime_of_reply_masked {σ : Type} (H : Header) (T : Transport σ) (s : State σ)
    (b0 b1 b2 b3 b4 b5 b6 : Nat)
    (hr : (burstRead H T H.RTC_SECOND_ADDR 7 s.wire).rxBuffer = [b0, b1, b2, b3, b4, b5, b6]) :
    (readTime H T s).drv.clock =
      [bcdToDec (b0 &&& 0x7F), bcdToDec (b1 &&& 0x7F), bcdToDec (b2 &&& 0x3F),
       bcdToDec (b3 &&& 0x3F), bcdToDec (b4 &&& 0x07), bcdToDec (b5 &&& 0x1F),
       bcdToDec b6 + 1970] := by
  rw [readTime_of_reply H T s b0 b1 b2 b3 b4 b5 b6 hr]
  have h7F : ∀ b : Nat, toU8 (Int.land (b : Int) 0x7F) = b &&& 0x7F :=
    fun b => toU8_land b 0x7F (by decide)
  have h3F : ∀ b : Nat, toU8 (Int.land (b : Int) 0x3F) = b &&& 0x3F :=
    fun b => toU8_land b 0x3F (by decide)
  have h07 : ∀ b : Nat, toU8 (Int.land (b : Int) 0x07) = b &&& 0x07 :=
    fun b => toU8_land b 0x07 (by decide)
  have h1F : ∀ b : Nat, toU8 (Int.land (b : Int) 0x1F) = b &&& 0x1F :=
    fun b => toU8_land b 0x1F (by decide)
  have hy : (bcdToDec (toU8 (b6 : Int)) + 1970) % 65536 = bcdToDec b6 + 1970 := by
    have e : bcdToDec (toU8 (b6 : Int)) = bcdToDec b6 := by
      rw [toU8_ofNat]
      unfold bcdToDec
      rw [Nat.mod_mod]
    rw [e]
    have := bcdToDec_lt b6
    omega
  rw [h7F, h7F, h3F, h3F, h07, h1F, hy]

/-- The bytes the echoing register file returns to `readTime` after `setTime`
and then `setDate`, when the day register lies three addresses after the
seconds register. -/
theorem setTime_setDate_echo_reply (H : Header) (s : State Chip)
    (hour minute second weekday day month yr : Nat)
    (haddr : H.RTC_DAY_ADDR % 256 = H.RTC_SECOND_ADDR % 256 + 3) :
    (burstRead H echo H.RTC_SECOND_ADDR 7
        (setDate H echo weekday day month yr (setTime H echo hour minute second s)).wire).rxBuffer =
      [decToBcd second, decToBcd minute, decToBcd hour, decToBcd day, decToBcd weekday,
       decToBcd month, decToBcd (((yr : Int) - 1970) % 256).toNat] := by
  rw [setDate_echo_reply H _ weekday day month yr haddr, setDate_year_byte]
  have hdev : (setTime H echo hour minute second s).wire.dev =
      echo.onWrite s.wire.dev
        (H.RTC_SECOND_ADDR % 256 :: [decToBcd second % 256, decToBcd minute % 256,
          decToBcd hour % 256]) := rfl
  have h0 := echo_write_regs s.wire.dev (H.RTC_SECOND_ADDR % 256)
    [decToBcd second % 256, decToBcd minute % 256, decToBcd hour % 256] 0 (by simp)
  have h1 := echo_write_regs s.wire.dev (H.RTC_SECOND_ADDR % 256)
    [decToBcd second % 256, decToBcd minute % 256, decToBcd hour % 256] 1 (by simp)
  have h2 := echo_write_regs s.wire.dev (H.RTC_SECOND_ADDR % 256)
    [decToBcd second % 256, decToBcd minute % 256, decToBcd hour % 256] 2 (by simp)
  rw [Nat.add_zero] at h0
  rw [hdev, h0, h1, h2]
  simp [decToBcd_mod]

/-! ## Write order of the clock registers -/

/-- C11: for all inputs `setTime` issues exactly one write transaction, the
seconds address followed by `decToBcd second, decToBcd minute, decToBcd hour`,
and `setDate` exactly one, the day address followed by `decToBcd day,
decToBcd weekday, decToBcd month, decToBcd ((year - 1970) mod 256)`. The order
is the one `readTime` decodes: over the echoing register file (day register
three addresses after the seconds register) each cached clock member is
decoded from the byte written for the argument of the same name. -/
theorem setTime_setDate_write_order {σ : Type} (H : Header) (T : Transport σ) (s : State σ)
    (hour minute second weekday day month year : Nat) :
    (setTime H T hour minute second s).wire.log = s.wire.log ++
      [BusEvent.write [H.RTC_SECOND_ADDR % 256, decToBcd second, decToBcd minute,
        decToBcd hour]] ∧
    (setDate H T weekday day month year s).wire.log = s.wire.log ++
      [BusEvent.write [H.RTC_DAY_ADDR % 256, decToBcd day, decToBcd weekday, decToBcd month,
        decToBcd (((year : Int) - 1970) % 256).toNat]] ∧
    (∀ c : State Chip, H.RTC_DAY_ADDR % 256 = H.RTC_SECOND_ADDR % 256 + 3 →
      (readTime H echo
          (setDate H echo weekday day month year (setTime H echo hour minute second c))).drv.clock =
        [bcdToDec (decToBcd second &&& 0x7F), bcdToDec (decToBcd minute &&& 0x7F),
         bcdToDec (decToBcd hour &&& 0x3F), bcdToDec (decToBcd day &&& 0x3F),
         bcdToDec (decToBcd weekday &&& 0x07), bcdToDec (decToBcd month &&& 0x1F),
         bcdToDec (decToBcd (((year : Int) - 1970) % 256).toNat) + 1970]) := by
  refine ⟨setTime_log H T s hour minute second, ?_, ?_⟩
  · rw [setDate_log, setDate_year_byte]
  · intro c haddr
    exact readTime_of_reply_masked H echo _ _ _ _ _ _ _ _
      (setTime_setDate_echo_reply H c hour minute second weekday day month year haddr)

theorem setTime_setDate_write_order_witness :
    datasheet.RTC_DAY_ADDR % 256 = datasheet.RTC_SECOND_ADDR % 256 + 3 ∧
    (setTime datasheet echo 24 61 60 (State.init Chip.zero)).wire.log =
      [BusEvent.write [0x04, 0x60, 0x61, 0x24]] ∧
    (setDate datasheet echo 7 32 13 2070 (State.init Chip.zero)).wire.log =
      [BusEvent.write [0x07, 0x32, 0x07, 0x13, 0xA0]] ∧
    (readTime datasheet echo
        (setDate datasheet echo 3 15 6 2024
          (setTime datasheet echo 23 59 58 (State.init Chip.zero)))).drv.clock =
      [58, 59, 23, 15, 3, 6, 2024] :=
  ⟨by decide,
   (setTime_setDate_write_order datasheet echo (State.init Chip.zero) 24 61 60 0 0 0 0).1,
   (setTime_setDate_write_order datasheet echo (State.init Chip.zero) 0 0 0 7 32 13 2070).2.1,
   (setTime_setDate_write_order datasheet echo (State.init Chip.zero) 23 59 58 3 15 6 2024).2.2
     (State.init Chip.zero) (by decide)⟩

/-! ## No clamping of time and date -/

set_option maxRecDepth 100000 in
/-- C12, as the code behaves: `setTime 24 0 60` writes `0x60` for the second
and `0x24` for the hour, and `setDate` with month 13 and year 2070 writes
`0x13` and `0xA0`; none of these bytes is the BCD encoding of a value of the
domain of its field. -/
theorem setTime_setDate_not_clamped :
    (setTime datasheet echo 24 0 60 (State.init Chip.zero)).wire.log =
      [BusEvent.write [0x04, 0x60, 0x00, 0x24]] ∧
    ¬ isBcdOf 0 59 0x60 ∧ ¬ isBcdOf 0 23 0x24 ∧
    (setDate datasheet echo 0 1 13 2070 (State.init Chip.zero)).wire.log =
      [BusEvent.write [0x07, 0x01, 0x00, 0x13, 0xA0]] ∧
    ¬ isBcdOf 1 12 0x13 ∧ ¬ isBcdOf 0 99 0xA0 := by
  refine ⟨?_, by decide, by decide, ?_, by decide, by decide⟩
  · exact setTime_log datasheet echo (State.init Chip.zero) 24 0 60
  · exact setDate_log datasheet echo (State.init Chip.zero) 0 1 13 2070

/-- C12, amended: `setTime` and `setDate` do not clamp. For every input each
byte written is `decToBcd` of the argument as given (for the year, of
`year - 1970`); when an argument lies in the domain of its field (hour 0..23,
minute 0..59, second 0..59, weekday 0..6, day 1..31, month 1..12, year
1970..2069) the byte written for it is the BCD encoding of a value of that
domain. -/
theorem setTime_setDate_in_range {σ : Type} (H : Header) (T : Transport σ) (s : State σ)
    (hour minute second weekday day month year : Nat) :
    (setTime H T hour minute second s).wire.log = s.wire.log ++
      [BusEvent.write [H.RTC_SECOND_ADDR % 256, decToBcd second, decToBcd minute,
        decToBcd hour]] ∧
    (second ≤ 59 → isBcdOf 0 59 (decToBcd second)) ∧
    (minute ≤ 59 → isBcdOf 0 59 (decToBcd minute)) ∧
    (hour ≤ 23 → isBcdOf 0 23 (decToBcd hour)) ∧
    (setDate H T weekday day month year s).wire.log = s.wire.log ++
      [BusEvent.write [H.RTC_DAY_ADDR % 256, decToBcd day, decToBcd weekday, decToBcd month,
        decToBcd (((year : Int) - 1970) % 256).toNat]] ∧
    (1 ≤ day ∧ day ≤ 31 → isBcdOf 1 31 (decToBcd day)) ∧
    (weekday ≤ 6 → isBcdOf 0 6 (decToBcd weekday)) ∧
    (1 ≤ month ∧ month ≤ 12 → isBcdOf 1 12 (decToBcd month)) ∧
    (1970 ≤ year ∧ year ≤ 2069 →
      isBcdOf 0 99 (decToBcd (((year : Int) - 1970) % 256).toNat)) := by
  refine ⟨setTime_log H T s hour minute second, ?_, ?_, ?_, ?_, ?_, ?_, ?_, ?_⟩
  · exact fun h => ⟨second, by omega, by omega, rfl⟩
  · exact fun h => ⟨minute, by omega, by omega, rfl⟩
  · exact fun h => ⟨hour, by omega, by omega, rfl⟩
  · rw [setDate_log, setDate_year_byte]
  · exact fun h => ⟨day, by omega, by omega, rfl⟩
  · exact fun h => ⟨weekday, by omega, by omega, rfl⟩
  · exact fun h => ⟨month, by omega, by omega, rfl⟩
  · intro h
    refine ⟨year - 1970, by omega, by omega, ?_⟩
    apply decToBcd_congr
    omega

theorem setTime_setDate_in_range_witness :
    ((58 : Nat) ≤ 59 ∧ (23 : Nat) ≤ 23 ∧ ((1970 : Nat) ≤ 2024 ∧ (2024 : Nat) ≤ 2069)) ∧
    isBcdOf 0 59 (decToBcd 58) ∧ isBcdOf 0 23 (decToBcd 23) ∧
    isBcdOf 0 99 (decToBcd ((((2024 : Nat) : Int) - 1970) % 256).toNat) :=
  ⟨by decide,
   (setTime_setDate_in_range datasheet echo (State.init Chip.zero) 23 59 58 3 15 6 2024).2.1
     (by decide),
   (setTime_setDate_in_range datasheet echo (State.init Chip.zero) 23 59 58 3 15 6 2024).2.2.2.1
     (by decide),
   (setTime_setDate_in_range datasheet echo (State.init Chip.zero) 23 59 58 3 15 6
     2024).2.2.2.2.2.2.2.2 (by decide)⟩

/-! ## Clamping of the alarm fields -/

theorem alarmEncode_clamp_59 :
    ∀ v : Nat, v < 99 → alarmEncode v 0 59 = decToBcd (max 0 (min v 59)) ∧
      decToBcd (max 0 (min v 59)) &&& 0x80 = 0 := by
  decide

theorem alarmEncode_clamp_23 :
    ∀ v : Nat, v < 99 → alarmEncode v 0 23 = decToBcd (max 0 (min v 23)) ∧
      decToBcd (max 0 (min v 23)) &&& 0x80 = 0 := by
  decide

theorem alarmEncode_clamp_31 :
    ∀ v : Nat, v < 99 → alarmEncode v 1 31 = decToBcd (max 1 (min v 31)) ∧
      decToBcd (max 1 (min v 31)) &&& 0x80 = 0 := by
  decide

theorem alarmEncode_clamp_6 :
    ∀ v : Nat, v < 99 → alarmEncode v 0 6 = decToBcd (max 0 (min v 6)) ∧
      decToBcd (max 0 (min v 6)) &&& 0x80 = 0 := by
  decide

/-- C13: for each alarm field and every input `v < 99` in that position, the
byte `setAlarm` writes for the field in the alarm-block transaction is
`decToBcd` of `v` clamped to the range of the field (0..59 for second and
minute, 0..23 for hour, 1..31 for day, 0..6 for weekday), and bit 7 of that
byte is clear, whatever the other four arguments are. -/
theorem setAlarm_clamped_byte {σ : Type} (H : Header) (T : Transport σ) (s : State σ)
    (a0 a1 a2 a3 a4 : Nat) :
    (a0 < 99 →
      (setAlarm H T a0 a1 a2 a3 a4 s).wire.log = s.wire.log ++
        [BusEvent.write [H.RTC_CTRL_2 % 256, enableAlarmByte H % 256],
         BusEvent.write [H.RTC_SECOND_ALARM % 256, decToBcd (max 0 (min a0 59)),
           alarmEncode a1 0 59, alarmEncode a2 0 23, alarmEncode a3 1 31, alarmEncode a4 0 6]] ∧
      decToBcd (max 0 (min a0 59)) &&& 0x80 = 0) ∧
    (a1 < 99 →
      (setAlarm H T a0 a1 a2 a3 a4 s).wire.log = s.wire.log ++
        [BusEvent.write [H.RTC_CTRL_2 % 256, enableAlarmByte H % 256],
         BusEvent.write [H.RTC_SECOND_ALARM % 256, alarmEncode a0 0 59,
           decToBcd (max 0 (min a1 59)), alarmEncode a2 0 23, alarmEncode a3 1 31,
           alarmEncode a4 0 6]] ∧
      decToBcd (max 0 (min a1 59)) &&& 0x80 = 0) ∧
    (a2 < 99 →
      (setAlarm H T a0 a1 a2 a3 a4 s).wire.log = s.wire.log ++
        [BusEvent.write [H.RTC_CTRL_2 % 256, enableAlarmByte H % 256],
         BusEvent.write [H.RTC_SECOND_ALARM % 256, alarmEncode a0 0 59, alarmEncode a1 0 59,
           decToBcd (max 0 (min a2 23)), alarmEncode a3 1 31, alarmEncode a4 0 6]] ∧
      decToBcd (max 0 (min a2 23)) &&& 0x80 = 0) ∧
    (a3 < 99 →
      (setAlarm H T a0 a1 a2 a3 a4 s).wire.log = s.wire.log ++
        [BusEvent.write [H.RTC_CTRL_2 % 256, enableAlarmByte H % 256],
         BusEvent.write [H.RTC_SECOND_ALARM % 256, alarmEncode a0 0 59, alarmEncode a1 0 59,
           alarmEncode a2 0 23, decToBcd (max 1 (min a3 31)), alarmEncode a4 0 6]] ∧
      decToBcd (max 1 (min a3 31)) &&& 0x80 = 0) ∧
    (a4 < 99 →
      (setAlarm H T a0 a1 a2 a3 a4 s).wire.log = s.wire.log ++
        [BusEvent.write [H.RTC_CTRL_2 % 256, enableAlarmByte H % 256],
         BusEvent.write [H.RTC_SECOND_ALARM % 256, alarmEncode a0 0 59, alarmEncode a1 0 59,
           alarmEncode a2 0 23, alarmEncode a3 1 31, decToBcd (max 0 (min a4 6))]] ∧
      decToBcd (max 0 (min a4 6)) &&& 0x80 = 0) := by
  refine ⟨fun h => ?_, fun h => ?_, fun h => ?_, fun h => ?_, fun h => ?_⟩
  · rw [setAlarm_log, (alarmEncode_clamp_59 a0 h).1]
    exact ⟨rfl, (alarmEncode_clamp_59 a0 h).2⟩
  · rw [setAlarm_log, (alarmEncode_clamp_59 a1 h).1]
    exact ⟨rfl, (alarmEncode_clamp_59 a1 h).2⟩
  · rw [setAlarm_log, (alarmEncode_clamp_23 a2 h).1]
    exact ⟨rfl, (alarmEncode_clamp_23 a2 h).2⟩
  · rw [setAlarm_log, (alarmEncode_clamp_31 a3 h).1]
    exact ⟨rfl, (alarmEncode_clamp_31 a3 h).2⟩
  · rw [setAlarm_log, (alarmEncode_clamp_6 a4 h).1]
    exact ⟨rfl, (alarmEncode_clamp_6 a4 h).2⟩

theorem setAlarm_clamped_byte_witness :
    ((98 : Nat) < 99 ∧ (0 : Nat) < 99) ∧
    decToBcd (max 0 (min 98 59)) = 0x59 ∧ decToBcd (max 1 (min 0 31)) = 0x01 ∧
    (setAlarm datasheet echo 98 99 99 0 99 (State.init Chip.zero)).wire.log =
      (State.init Chip.zero).wire.log ++
        [BusEvent.write [datasheet.RTC_CTRL_2 % 256, enableAlarmByte datasheet % 256],
         BusEvent.write [datasheet.RTC_SECOND_ALARM % 256, decToBcd (max 0 (min 98 59)),
           alarmEncode 99 0 59, alarmEncode 99 0 23, alarmEncode 0 1 31, alarmEncode 99 0 6]] ∧
    (setAlarm datasheet echo 98 99 99 0 99 (State.init Chip.zero)).wire.log =
      (State.init Chip.zero).wire.log ++
        [BusEvent.write [datasheet.RTC_CTRL_2 % 256, enableAlarmByte datasheet % 256],
         BusEvent.write [datasheet.RTC_SECOND_ALARM % 256, alarmEncode 98 0 59,
           alarmEncode 99 0 59, alarmEncode 99 0 23, decToBcd (max 1 (min 0 31)),
           alarmEncode 99 0 6]] :=
  ⟨by decide, by decide, by decide,
   ((setAlarm_clamped_byte datasheet echo (State.init Chip.zero) 98 99 99 0 99).1
      (by decide)).1,
   ((setAlarm_clamped_byte datasheet echo (State.init Chip.zero) 98 99 99 0 99).2.2.2.1
      (by decide)).1⟩

/-! ## Offset decoding -/

set_option maxRecDepth 100000 in
theorem signExtend7_value :
    ∀ b : Nat, b < 256 →
      toI8 (signExtend7 b) =
        (if b &&& 0x40 = 0 then ((b &&& 0x7F : Nat) : Int) else ((b &&& 0x7F : Nat) : Int) - 128) ∧
      -64 ≤ toI8 (signExtend7 b) ∧ toI8 (signExtend7 b) ≤ 63 := by
  decide

theorem signExtend7_low7 (b c : Nat) (h : b &&& 0x7F = c &&& 0x7F) :
    signExtend7 b = signExtend7 c := by
  have hn : not8 (1 <<< 7) = 0x7F := by decide
  unfold signExtend7
  rw [hn, h]

theorem getOffset_of_reply {σ : Type} (H : Header) (T : Transport σ) (s : State σ) (b : Nat)
    (hr : (burstRead H T H.RTC_OFFSET 1 s.wire).rxBuffer = [b]) :
    b < 256 ∧ (getOffset H T s).1 = toI8 (signExtend7 b) ∧
    (getOffsetMode H T s).1 = decide (b &&& 0x80 ≠ 0) := by
  have hb : b < 256 := burstRead_byte_lt H T _ _ _ b (by rw [hr]; simp)
  have ho : (readOffset H T s).drv.offset = b := by
    rw [readOffset_of_reply H T s b hr, toU8_ofNat]
    exact Nat.mod_eq_of_lt hb
  refine ⟨hb, ?_, ?_⟩
  · show toI8 (signExtend7 (readOffset H T s).drv.offset) = _
    rw [ho]
  · show decide ((readOffset H T s).drv.offset &&& (1 <<< 7) ≠ 0) = _
    rw [ho]
    rfl

/-- C14: when the offset register is read as the byte `b`, `getOffset` returns
the sign-extended value of the low seven bits of `b`, that is `b & 0x7F` when
bit 6 is clear and `(b & 0x7F) - 128` when it is set; the result lies in
`[-64, 63]` and is the same for any other byte with the same low seven bits,
so it does not depend on bit 7; `getOffsetMode` returns true exactly when bit
7 of `b` is set. -/
theorem getOffset_sign_extends {σ : Type} (H : Header) (T : Transport σ) (s : State σ) (b : Nat)
    (hr : (burstRead H T H.RTC_OFFSET 1 s.wire).rxBuffer = [b]) :
    (getOffset H T s).1 =
      (if b &&& 0x40 = 0 then ((b &&& 0x7F : Nat) : Int) else ((b &&& 0x7F : Nat) : Int) - 128) ∧
    -64 ≤ (getOffset H T s).1 ∧ (getOffset H T s).1 ≤ 63 ∧
    ((getOffsetMode H T s).1 = true ↔ b &&& 0x80 ≠ 0) ∧
    (∀ (τ : Type) (U : Transport τ) (t : State τ) (c : Nat),
      (burstRead H U H.RTC_OFFSET 1 t.wire).rxBuffer = [c] → b &&& 0x7F = c &&& 0x7F →
      (getOffset H U t).1 = (getOffset H T s).1) := by
  obtain ⟨hb, hv, hm⟩ := getOffset_of_reply H T s b hr
  obtain ⟨h1, h2, h3⟩ := signExtend7_value b hb
  refine ⟨?_, ?_, ?_, ?_, ?_⟩
  · rw [hv, h1]
  · rw [hv]; exact h2
  · rw [hv]; exact h3
  · rw [hm]; simp
  · intro τ U t c hc hbc
    rw [hv, (getOffset_of_reply H U t c hc).2.1, signExtend7_low7 b c hbc]

theorem getOffset_sign_extends_witness :
    (burstRead datasheet (scripted [0xC0]) datasheet.RTC_OFFSET 1 (State.init ()).wire).rxBuffer
      = [0xC0] ∧
    (getOffset datasheet (scripted [0xC0]) (State.init ())).1
      = (if 0xC0 &&& 0x40 = 0 then ((0xC0 &&& 0x7F : Nat) : Int)
          else ((0xC0 &&& 0x7F : Nat) : Int) - 128) ∧
    ((getOffsetMode datasheet (scripted [0xC0]) (State.init ())).1 = true ↔ 0xC0 &&& 0x80 ≠ 0) :=
  ⟨by decide,
   (getOffset_sign_extends datasheet (scripted [0xC0]) (State.init ()) 0xC0 (by decide)).1,
   (getOffset_sign_extends datasheet (scripted [0xC0]) (State.init ()) 0xC0 (by decide)).2.2.2.1⟩

/-! ## Countdown timer -/

/-- The three write transactions of `timerSet`. -/
theorem timerSet_log {σ : Type} (H : Header) (T : Transport σ) (s : State σ)
    (source_clock value : Nat) (int_enable int_pulse : Bool) :
    (timerSet H T source_clock value int_enable int_pulse s).wire.log = s.wire.log ++
      [BusEvent.write [H.RTC_TIMER_MODE % 256, 0x18],
       BusEvent.write [H.RTC_CTRL_2 % 256, 0x00],
       BusEvent.write [H.RTC_TIMER_VAL % 256, value % 256,
         timerModeByte H source_clock int_enable int_pulse]] := by
  have hm : timerModeByte H source_clock int_enable int_pulse % 256
      = timerModeByte H source_clock int_enable int_pulse := by
    unfold timerModeByte
    exact Nat.mod_mod _ _
  simp [timerSet, Wire.endTransmission, Wire.write, Wire.beginTransmission, hm]

/-- The mode byte only depends on the three timer flags of the header. -/
theorem timerModeByte_flags (H : Header) (source_clock : Nat) (int_enable int_pulse : Bool) :
    timerModeByte H source_clock int_enable int_pulse =
      timerModeByte { datasheet with
        RTC_TIMER_TE := H.RTC_TIMER_TE
        RTC_TIMER_TIE := H.RTC_TIMER_TIE
        RTC_TIMER_TI_TP := H.RTC_TIMER_TI_TP } source_clock int_enable int_pulse := rfl

set_option maxRecDepth 1000000 in
set_option synthInstance.maxSize 100000 in
set_option synthInstance.maxHeartbeats 1000000 in
theorem timerModeByte_bits (int_enable int_pulse : Bool) :
    ∀ te : Nat, te < 8 → ∀ tie : Nat, tie < 8 → ∀ tp : Nat, tp < 8 → ∀ sc : Nat, sc < 4 →
      te &&& tie = 0 → te &&& tp = 0 → tie &&& tp = 0 →
      timerModeByte { datasheet with
          RTC_TIMER_TE := te, RTC_TIMER_TIE := tie, RTC_TIMER_TI_TP := tp }
          sc int_enable int_pulse =
        ((sc <<< 3) ||| te ||| (if int_enable then tie else 0) |||
          (if int_pulse then tp else 0)) ∧
      timerModeByte { datasheet with
          RTC_TIMER_TE := te, RTC_TIMER_TIE := tie, RTC_TIMER_TI_TP := tp }
          sc int_enable int_pulse &&& te = te ∧
      timerModeByte { datasheet with
          RTC_TIMER_TE := te, RTC_TIMER_TIE := tie, RTC_TIMER_TI_TP := tp }
          sc int_enable int_pulse &&& tie = (if int_enable then tie else 0) ∧
      timerModeByte { datasheet with
          RTC_TIMER_TE := te, RTC_TIMER_TIE := tie, RTC_TIMER_TI_TP := tp }
          sc int_enable int_pulse &&& tp = (if int_pulse then tp else 0) := by
  cases int_enable <;> cases int_pulse <;> decide

/-- C15: for a source clock in 0..3, a countdown value in 0..255 and either
value of the two flags, `timerSet` issues exactly three write transactions in
this order: timer-mode register <- `0x18`, control-2 register <- `0x00`, and
a burst at the timer-value register with payload `value, mode`, where `mode`
is `(source_clock << 3) | RTC_TIMER_TE | (RTC_TIMER_TIE if int_enable) |
(RTC_TIMER_TI_TP if int_pulse)`. The timer-enable bits of `mode` are always
set and the bits of each interrupt flag are set exactly when its argument is
true (the three flags being disjoint values below bit 3). -/
theorem timerSet_three_writes {σ : Type} (H : Header) (T : Transport σ) (s : State σ)
    (source_clock value : Nat) (int_enable int_pulse : Bool)
    (hsc : source_clock < 4) (hv : value < 256)
    (hTE : H.RTC_TIMER_TE < 8) (hTIE : H.RTC_TIMER_TIE < 8) (hTP : H.RTC_TIMER_TI_TP < 8)
    (hd : H.RTC_TIMER_TE &&& H.RTC_TIMER_TIE = 0 ∧ H.RTC_TIMER_TE &&& H.RTC_TIMER_TI_TP = 0 ∧
      H.RTC_TIMER_TIE &&& H.RTC_TIMER_TI_TP = 0) :
    (timerSet H T source_clock value int_enable int_pulse s).wire.log = s.wire.log ++
      [BusEvent.write [H.RTC_TIMER_MODE % 256, 0x18],
       BusEvent.write [H.RTC_CTRL_2 % 256, 0x00],
       BusEvent.write [H.RTC_TIMER_VAL % 256, value,
         ((source_clock <<< 3) ||| H.RTC_TIMER_TE |||
           (if int_enable then H.RTC_TIMER_TIE else 0) |||
           (if int_pulse then H.RTC_TIMER_TI_TP else 0))]] ∧
    ((source_clock <<< 3) ||| H.RTC_TIMER_TE ||| (if int_enable then H.RTC_TIMER_TIE else 0) |||
        (if int_pulse then H.RTC_TIMER_TI_TP else 0)) &&& H.RTC_TIMER_TE = H.RTC_TIMER_TE ∧
    ((source_clock <<< 3) ||| H.RTC_TIMER_TE ||| (if int_enable then H.RTC_TIMER_TIE else 0) |||
        (if int_pulse then H.RTC_TIMER_TI_TP else 0)) &&& H.RTC_TIMER_TIE =
      (if int_enable then H.RTC_TIMER_TIE else 0) ∧
    ((source_clock <<< 3) ||| H.RTC_TIMER_TE ||| (if int_enable then H.RTC_TIMER_TIE else 0) |||
        (if int_pulse then H.RTC_TIMER_TI_TP else 0)) &&& H.RTC_TIMER_TI_TP =
      (if int_pulse then H.RTC_TIMER_TI_TP else 0) := by
  obtain ⟨h1, h2, h3, h4⟩ := timerModeByte_bits int_enable int_pulse
    H.RTC_TIMER_TE hTE H.RTC_TIMER_TIE hTIE H.RTC_TIMER_TI_TP hTP source_clock hsc
    hd.1 hd.2.1 hd.2.2
  rw [← timerModeByte_flags H] at h1 h2 h3 h4
  rw [← h1]
  refine ⟨?_, h2, h3, h4⟩
  rw [timerSet_log, Nat.mod_eq_of_lt hv]

theorem timerSet_three_writes_witness :
    ((2 : Nat) < 4 ∧ (10 : Nat) < 256 ∧ datasheet.RTC_TIMER_TE < 8 ∧ datasheet.RTC_TIMER_TIE < 8 ∧
      datasheet.RTC_TIMER_TI_TP < 8 ∧
      (datasheet.RTC_TIMER_TE &&& datasheet.RTC_TIMER_TIE = 0 ∧
        datasheet.RTC_TIMER_TE &&& datasheet.RTC_TIMER_TI_TP = 0 ∧
        datasheet.RTC_TIMER_TIE &&& datasheet.RTC_TIMER_TI_TP = 0)) ∧
    (timerSet datasheet echo 2 10 true false (State.init Chip.zero)).wire.log =
      (State.init Chip.zero).wire.log ++
        [BusEvent.write [datasheet.RTC_TIMER_MODE % 256, 0x18],
         BusEvent.write [datasheet.RTC_CTRL_2 % 256, 0x00],
         BusEvent.write [datasheet.RTC_TIMER_VAL % 256, 10,
           ((2 <<< 3) ||| datasheet.RTC_TIMER_TE |||
             (if true then datasheet.RTC_TIMER_TIE else 0) |||
             (if false then datasheet.RTC_TIMER_TI_TP else 0))]] ∧
    ((2 <<< 3) ||| datasheet.RTC_TIMER_TE ||| (if true then datasheet.RTC_TIMER_TIE else 0) |||
      (if false then datasheet.RTC_TIMER_TI_TP else 0)) = 0x16 :=
  ⟨by decide,
   (timerSet_three_writes datasheet echo (State.init Chip.zero) 2 10 true false
     (by decide) (by decide) (by decide) (by decide) (by decide) (by decide)).1,
   by decide⟩

/-! ## Decoding masks of `readTime` -/

/-- C16: for every seven-byte reply `b0 .. b6`, `readTime` sets second to
`bcdToDec (b0 & 0x7F)`, minute to `bcdToDec (b1 & 0x7F)`, hour to
`bcdToDec (b2 & 0x3F)`, day to `bcdToDec (b3 & 0x3F)`, weekday to
`bcdToDec (b4 & 0x07)`, month to `bcdToDec (b5 & 0x1F)` and year to
`bcdToDec b6 + 1970`. Hence a second reply that agrees with the first on the
low seven bits of the seconds byte gives the same second, and likewise for
the low six bits of the hour byte, the low three bits of the weekday byte and
the low five bits of the month byte. -/
theorem readTime_decodes_masked {σ : Type} (H : Header) (T : Transport σ) (s : State σ)
    (b0 b1 b2 b3 b4 b5 b6 : Nat)
    (hr : (burstRead H T H.RTC_SECOND_ADDR 7 s.wire).rxBuffer = [b0, b1, b2, b3, b4, b5, b6]) :
    (readTime H T s).drv.second = bcdToDec (b0 &&& 0x7F) ∧
    (readTime H T s).drv.minute = bcdToDec (b1 &&& 0x7F) ∧
    (readTime H T s).drv.hour = bcdToDec (b2 &&& 0x3F) ∧
    (readTime H T s).drv.day = bcdToDec (b3 &&& 0x3F) ∧
    (readTime H T s).drv.weekday = bcdToDec (b4 &&& 0x07) ∧
    (readTime H T s).drv.month = bcdToDec (b5 &&& 0x1F) ∧
    (readTime H T s).drv.year = bcdToDec b6 + 1970 ∧
    (∀ (τ : Type) (U : Transport τ) (t : State τ) (c0 c1 c2 c3 c4 c5 c6 : Nat),
      (burstRead H U H.RTC_SECOND_ADDR 7 t.wire).rxBuffer = [c0, c1, c2, c3, c4, c5, c6] →
      (b0 &&& 0x7F = c0 &&& 0x7F → (readTime H U t).drv.second = (readTime H T s).drv.second) ∧
      (b2 &&& 0x3F = c2 &&& 0x3F → (readTime H U t).drv.hour = (readTime H T s).drv.hour) ∧
      (b4 &&& 0x07 = c4 &&& 0x07 →
        (readTime H U t).drv.weekday = (readTime H T s).drv.weekday) ∧
      (b5 &&& 0x1F = c5 &&& 0x1F → (readTime H U t).drv.month = (readTime H T s).drv.month)) := by
  have h := readTime_of_reply_masked H T s b0 b1 b2 b3 b4 b5 b6 hr
  simp only [Fields.clock, List.cons.injEq, and_true] at h
  obtain ⟨h0, h1, h2, h3, h4, h5, h6⟩ := h
  refine ⟨h0, h1, h2, h3, h4, h5, h6, ?_⟩
  intro τ U t c0 c1 c2 c3 c4 c5 c6 hc
  have k := readTime_of_reply_masked H U t c0 c1 c2 c3 c4 c5 c6 hc
  simp only [Fields.clock, List.cons.injEq, and_true] at k
  obtain ⟨k0, -, k2, -, k4, k5, -⟩ := k
  refine ⟨fun e => ?_, fun e => ?_, fun e => ?_, fun e => ?_⟩
  · rw [k0, h0, e]
  · rw [k2, h2, e]
  · rw [k4, h4, e]
  · rw [k5, h5, e]

theorem readTime_decodes_masked_witness :
    (burstRead datasheet (scripted [0xD8, 0x59, 0xE3, 0x15, 0xFB, 0xE6, 0x54])
        datasheet.RTC_SECOND_ADDR 7 (State.init ()).wire).rxBuffer
      = [0xD8, 0x59, 0xE3, 0x15, 0xFB, 0xE6, 0x54] ∧
    (readTime datasheet (scripted [0xD8, 0x59, 0xE3, 0x15, 0xFB, 0xE6, 0x54])
        (State.init ())).drv.second = bcdToDec (0xD8 &&& 0x7F) ∧
    bcdToDec (0xD8 &&& 0x7F) = 58 ∧
    (readTime datasheet (scripted [0xD8, 0x59, 0xE3, 0x15, 0xFB, 0xE6, 0x54])
        (State.init ())).drv.year = bcdToDec 0x54 + 1970 ∧
    bcdToDec 0x54 + 1970 = 2024 :=
  ⟨by decide,
   (readTime_decodes_masked datasheet (scripted [0xD8, 0x59, 0xE3, 0x15, 0xFB, 0xE6, 0x54])
     (State.init ()) 0xD8 0x59 0xE3 0x15 0xFB 0xE6 0x54 (by decide)).1,
   by decide,
   (readTime_decodes_masked datasheet (scripted [0xD8, 0x59, 0xE3, 0x15, 0xFB, 0xE6, 0x54])
     (State.init ()) 0xD8 0x59 0xE3 0x15 0xFB 0xE6 0x54 (by decide)).2.2.2.2.2.2.1,
   by decide⟩

/-! ## Transactions of `setAlarm` -/

/-- C17: for all five arguments `setAlarm` issues exactly two write
transactions in this order: first the single-byte control-2 write that
`enableAlarm` issues on its own, then one burst at the second-alarm register
with five bytes, the encoded second, minute, hour, day and weekday. Each
encoded byte is a function of the argument of its own field only. -/
theorem setAlarm_two_writes {σ : Type} (H : Header) (T : Transport σ) (s : State σ)
    (a0 a1 a2 a3 a4 : Nat) :
    (setAlarm H T a0 a1 a2 a3 a4 s).wire.log = s.wire.log ++
      [BusEvent.write [H.RTC_CTRL_2 % 256, enableAlarmByte H],
       BusEvent.write [H.RTC_SECOND_ALARM % 256, alarmEncode a0 0 59, alarmEncode a1 0 59,
         alarmEncode a2 0 23, alarmEncode a3 1 31, alarmEncode a4 0 6]] ∧
    (enableAlarm H T s).wire.log = s.wire.log ++
      [BusEvent.write [H.RTC_CTRL_2 % 256, enableAlarmByte H]] ∧
    (setAlarm H T a0 a1 a2 a3 a4 s).wire.log = (enableAlarm H T s).wire.log ++
      [BusEvent.write [H.RTC_SECOND_ALARM % 256, alarmEncode a0 0 59, alarmEncode a1 0 59,
         alarmEncode a2 0 23, alarmEncode a3 1 31, alarmEncode a4 0 6]] := by
  have hb : enableAlarmByte H % 256 = enableAlarmByte H := Nat.mod_eq_of_lt (enableAlarmByte_lt H)
  have he : (enableAlarm H T s).wire.log = s.wire.log ++
      [BusEvent.write [H.RTC_CTRL_2 % 256, enableAlarmByte H]] := by
    simp [enableAlarm, Wire.endTransmission, Wire.write, Wire.beginTransmission, hb]
  refine ⟨?_, he, ?_⟩
  · rw [setAlarm_log, hb]
  · rw [setAlarm_log, he, hb]
    simp

/-! ## The BCD codec on the whole byte range -/

set_option maxRecDepth 100000 in
theorem bcd_byte_table :
    ∀ v : Nat, v < 256 →
      ((bcdToDec (decToBcd v) = v ↔ v ≤ 159) ∧
       (160 ≤ v → bcdToDec (decToBcd v) = v - 160)) ∧
      (v % 16 ≤ 9 → decToBcd (bcdToDec v) = v) := by
  decide

/-- C18: on the whole 8-bit domain `bcdToDec (decToBcd v) = v` holds exactly
when `v ≤ 159`, and for `v` in 160..255 the result is `v - 160`; conversely
`decToBcd (bcdToDec b) = b` for every byte `b` whose low nibble is at most 9. -/
theorem codec_byte_range_roundtrip (v : Nat) (hv : v < 256) :
    (bcdToDec (decToBcd v) = v ↔ v ≤ 159) ∧
    (160 ≤ v → bcdToDec (decToBcd v) = v - 160) ∧
    (v % 16 ≤ 9 → decToBcd (bcdToDec v) = v) :=
  ⟨(bcd_byte_table v hv).1.1, (bcd_byte_table v hv).1.2, (bcd_byte_table v hv).2⟩

theorem codec_byte_range_roundtrip_witness :
    (100 : Nat) < 256 ∧ decToBcd 100 = 0xA0 ∧ bcdToDec (decToBcd 100) = 100 ∧
    ((200 : Nat) < 256 ∧ bcdToDec (decToBcd 200) = 200 - 160) ∧
    ((0xF9 : Nat) < 256 ∧ decToBcd (bcdToDec 0xF9) = 0xF9) ∧
    (readTime datasheet echo (setDate datasheet echo 3 15 6 2070 (State.init Chip.zero))).drv.year
      = 2070 := by
  refine ⟨by decide, by decide,
    (codec_byte_range_roundtrip 100 (by decide)).1.2 (by decide),
    ⟨by decide, (codec_byte_range_roundtrip 200 (by decide)).2.1 (by decide)⟩,
    ⟨by decide, (codec_byte_range_roundtrip 0xF9 (by decide)).2.2 (by decide)⟩, ?_⟩
  have h := readTime_of_reply_masked datasheet echo _ _ _ _ _ _ _ _
    (setDate_echo_reply datasheet (State.init Chip.zero) 3 15 6 2070 (by decide))
  simp only [Fields.clock, List.cons.injEq, and_true] at h
  rw [h.2.2.2.2.2.2]
  decide

/-! ## Alarm and timer on the register file -/

theorem timerSet_echo_dev (H : Header) (s : State Chip) (source_clock value : Nat)
    (int_enable int_pulse : Bool) :
    (timerSet H echo source_clock value int_enable int_pulse s).wire.dev =
      echo.onWrite
        (echo.onWrite
          (echo.onWrite s.wire.dev (H.RTC_TIMER_MODE % 256 :: [0x18 % 256]))
          (H.RTC_CTRL_2 % 256 :: [0x00 % 256]))
        (H.RTC_TIMER_VAL % 256 :: [value % 256,
          timerModeByte H source_clock int_enable int_pulse % 256]) := rfl

theorem setAlarm_echo_dev (H : Header) (s : State Chip) (a0 a1 a2 a3 a4 : Nat) :
    (setAlarm H echo a0 a1 a2 a3 a4 s).wire.dev =
      echo.onWrite
        (echo.onWrite s.wire.dev (H.RTC_CTRL_2 % 256 :: [enableAlarmByte H % 256]))
        (H.RTC_SECOND_ALARM % 256 :: [alarmEncode a0 0 59 % 256, alarmEncode a1 0 59 % 256,
          alarmEncode a2 0 23 % 256, alarmEncode a3 1 31 % 256, alarmEncode a4 0 6 % 256]) := rfl

/-- On the echoing register file a register outside the three writes of
`timerSet` keeps its content. -/
theorem timerSet_echo_regs_other (H : Header) (s : State Chip) (source_clock value : Nat)
    (int_enable int_pulse : Bool) (x : Nat)
    (h1 : x ≠ H.RTC_TIMER_MODE % 256) (h2 : x ≠ H.RTC_CTRL_2 % 256)
    (h3 : x ≠ H.RTC_TIMER_VAL % 256) (h4 : x ≠ H.RTC_TIMER_VAL % 256 + 1) :
    (timerSet H echo source_clock value int_enable int_pulse s).wire.dev.regs x
      = s.wire.dev.regs x := by
  rw [timerSet_echo_dev,
    echo_write_regs_other _ _ _ x (by simp only [List.length_cons, List.length_nil]; omega),
    echo_write_regs_other _ _ _ x (by simp only [List.length_cons, List.length_nil]; omega),
    echo_write_regs_other _ _ _ x (by simp only [List.length_cons, List.length_nil]; omega)]

/-- On the echoing register file a register outside the two writes of
`setAlarm` keeps its content. -/
theorem setAlarm_echo_regs_other (H : Header) (s : State Chip) (a0 a1 a2 a3 a4 : Nat) (x : Nat)
    (h1 : x ≠ H.RTC_CTRL_2 % 256)
    (h2 : x < H.RTC_SECOND_ALARM % 256 ∨ H.RTC_SECOND_ALARM % 256 + 5 ≤ x) :
    (setAlarm H echo a0 a1 a2 a3 a4 s).wire.dev.regs x = s.wire.dev.regs x := by
  rw [setAlarm_echo_dev,
    echo_write_regs_other _ _ _ x (by simp only [List.length_cons, List.length_nil]; omega),
    echo_write_regs_other _ _ _ x (by simp only [List.length_cons, List.length_nil]; omega)]

/-- C19: on the echoing register file, with control-2 below the alarm block,
the alarm block below the timer-value register and the timer-mode register
right after the timer-value register: `timerSet` after `setAlarm` leaves
control-2 equal to `0x00`, so the alarm-interrupt-enable bit is clear, and
leaves the five alarm registers as `setAlarm` wrote them; `setAlarm` after
`timerSet` leaves the timer-value and timer-mode registers as `timerSet`
wrote them. -/
theorem timerSet_setAlarm_frame (H : Header) (s : State Chip) (a0 a1 a2 a3 a4 : Nat)
    (source_clock value : Nat) (int_enable int_pulse : Bool)
    (hC : H.RTC_CTRL_2 % 256 < H.RTC_SECOND_ALARM % 256)
    (hA : H.RTC_SECOND_ALARM % 256 + 5 ≤ H.RTC_TIMER_VAL % 256)
    (hM : H.RTC_TIMER_MODE % 256 = H.RTC_TIMER_VAL % 256 + 1) :
    (timerSet H echo source_clock value int_enable int_pulse
        (setAlarm H echo a0 a1 a2 a3 a4 s)).wire.dev.regs (H.RTC_CTRL_2 % 256) = 0x00 ∧
    (timerSet H echo source_clock value int_enable int_pulse
        (setAlarm H echo a0 a1 a2 a3 a4 s)).wire.dev.regs (H.RTC_CTRL_2 % 256)
      &&& H.RTC_ALARM_AIE = 0 ∧
    (∀ i, i < 5 →
      (timerSet H echo source_clock value int_enable int_pulse
          (setAlarm H echo a0 a1 a2 a3 a4 s)).wire.dev.regs (H.RTC_SECOND_ALARM % 256 + i) =
        (setAlarm H echo a0 a1 a2 a3 a4 s).wire.dev.regs (H.RTC_SECOND_ALARM % 256 + i)) ∧
    (setAlarm H echo a0 a1 a2 a3 a4
        (timerSet H echo source_clock value int_enable int_pulse s)).wire.dev.regs
        (H.RTC_TIMER_VAL % 256) =
      (timerSet H echo source_clock value int_enable int_pulse s).wire.dev.regs
        (H.RTC_TIMER_VAL % 256) ∧
    (setAlarm H echo a0 a1 a2 a3 a4
        (timerSet H echo source_clock value int_enable int_pulse s)).wire.dev.regs
        (H.RTC_TIMER_MODE % 256) =
      (timerSet H echo source_clock value int_enable int_pulse s).wire.dev.regs
        (H.RTC_TIMER_MODE % 256) := by
  have hctrl : (timerSet H echo source_clock value int_enable int_pulse
      (setAlarm H echo a0 a1 a2 a3 a4 s)).wire.dev.regs (H.RTC_CTRL_2 % 256) = 0x00 := by
    rw [timerSet_echo_dev,
      echo_write_regs_other _ _ _ (H.RTC_CTRL_2 % 256)
        (by simp only [List.length_cons, List.length_nil]; omega)]
    exact echo_write_regs _ (H.RTC_CTRL_2 % 256) [0x00 % 256] 0 (by simp)
  refine ⟨hctrl, ?_, ?_, ?_, ?_⟩
  · rw [hctrl]
    exact Nat.zero_and _
  · intro i hi
    exact timerSet_echo_regs_other H _ source_clock value int_enable int_pulse _
      (by omega) (by omega) (by omega) (by omega)
  · exact setAlarm_echo_regs_other H _ a0 a1 a2 a3 a4 _ (by omega) (by omega)
  · exact setAlarm_echo_regs_other H _ a0 a1 a2 a3 a4 _ (by omega) (by omega)

theorem timerSet_setAlarm_frame_witness :
    (datasheet.RTC_CTRL_2 % 256 < datasheet.RTC_SECOND_ALARM % 256 ∧
      datasheet.RTC_SECOND_ALARM % 256 + 5 ≤ datasheet.RTC_TIMER_VAL % 256 ∧
      datasheet.RTC_TIMER_MODE % 256 = datasheet.RTC_TIMER_VAL % 256 + 1) ∧
    (timerSet datasheet echo 2 10 true false
        (setAlarm datasheet echo 30 15 7 99 99 (State.init Chip.zero))).wire.dev.regs
        (datasheet.RTC_CTRL_2 % 256) = 0x00 ∧
    (setAlarm datasheet echo 30 15 7 99 99
        (timerSet datasheet echo 2 10 true false (State.init Chip.zero))).wire.dev.regs
        (datasheet.RTC_TIMER_VAL % 256) =
      (timerSet datasheet echo 2 10 true false (State.init Chip.zero)).wire.dev.regs
        (datasheet.RTC_TIMER_VAL % 256) :=
  ⟨by decide,
   (timerSet_setAlarm_frame datasheet (State.init Chip.zero) 30 15 7 99 99 2 10 true false
     (by decide) (by decide) (by decide)).1,
   (timerSet_setAlarm_frame datasheet (State.init Chip.zero) 30 15 7 99 99 2 10 true false
     (by decide) (by decide) (by decide)).2.2.2.1⟩

/-! ## Cached members after `setDate` and `setTime` -/

/-- C20: `setDate weekday day month yr` writes one cached member: the cached
year becomes `yr - 1970` modulo `2^16`, which is never `yr` itself, and every
other member keeps its value; so when the next burst read returns no byte
`getYear` returns `yr - 1970` modulo `2^16`, which is `yr - 1970` for
`yr ≥ 1970`. `setTime` changes no cached member. -/
theorem setDate_caches_year_offset {σ : Type} (H : Header) (T : Transport σ) (s : State σ)
    (hour minute second weekday day month yr : Nat) :
    (setDate H T weekday day month yr s).drv =
      { s.drv with year := ((((yr % 65536 : Nat) : Int) - 1970) % 65536).toNat } ∧
    ((((yr % 65536 : Nat) : Int) - 1970) % 65536).toNat ≠ yr % 65536 ∧
    (1970 ≤ yr ∧ yr < 65536 →
      ((((yr % 65536 : Nat) : Int) - 1970) % 65536).toNat = yr - 1970) ∧
    ((burstRead H T H.RTC_SECOND_ADDR 7 (setDate H T weekday day month yr s).wire).rxBuffer = [] →
      (getYear H T (setDate H T weekday day month yr s)).1 =
        ((((yr % 65536 : Nat) : Int) - 1970) % 65536).toNat) ∧
    (setTime H T hour minute second s).drv = s.drv := by
  refine ⟨rfl, by omega, fun h => by omega, ?_, rfl⟩
  intro hr
  show (readTime H T (setDate H T weekday day month yr s)).drv.year = _
  rw [readTime_eq, readTimeLoop_empty _ hr]
  rfl

theorem setDate_caches_year_offset_witness :
    (burstRead datasheet (scripted []) datasheet.RTC_SECOND_ADDR 7
        (setDate datasheet (scripted []) 3 15 6 2024 (State.init ())).wire).rxBuffer = [] ∧
    ((1970 : Nat) ≤ 2024 ∧ (2024 : Nat) < 65536) ∧
    (((((2024 : Nat) % 65536 : Nat) : Int) - 1970) % 65536).toNat = 2024 - 1970 ∧
    (getYear datasheet (scripted []) (setDate datasheet (scripted []) 3 15 6 2024
        (State.init ()))).1 = (((((2024 : Nat) % 65536 : Nat) : Int) - 1970) % 65536).toNat ∧
    (2024 : Nat) - 1970 = 54 :=
  ⟨by decide, by decide,
   (setDate_caches_year_offset datasheet (scripted []) (State.init ()) 0 0 0 3 15 6 2024).2.2.1
     (by decide),
   (setDate_caches_year_offset datasheet (scripted []) (State.init ()) 0 0 0 3 15 6 2024).2.2.2.1
     (by decide),
   by decide⟩

end PCF85063A
